import Mathlib

/-!
Verification of the per-frame pose-and-scale estimator of the virtual try-on
application.  The development embeds, over ℝ, the arithmetic of
`src/utils/math.ts` (coordinate mapping, face-orientation quaternion),
`src/components/VirtualTryOn.tsx` (detection callback `onResults`) and
`src/components/GlassesModel.tsx` (per-frame smoothing/composition in
`useFrame`), together with the three.js vector/quaternion operations those
files call (`Vector3.normalize`, `Quaternion.setFromRotationMatrix`,
`Quaternion.slerp`, ...), translated branch by branch from the three.js
sources.
-/

namespace VTO

noncomputable section

/-- A MediaPipe `NormalizedLandmark`: x, y normalized to [0,1], z a relative
depth. -/
structure Landmark where
  x : ℝ
  y : ℝ
  z : ℝ


/-- three.js `Vector3`. -/
structure Vec3 where
  x : ℝ
  y : ℝ
  z : ℝ


/-- three.js `Quaternion`, components in (x, y, z, w) order. -/
structure Quat where
  x : ℝ
  y : ℝ
  z : ℝ
  w : ℝ


/-! three.js `Vector3` operations used by the sources. -/

/-- `new THREE.Vector3().subVectors(a, b)`: componentwise `a - b`. -/
def Vec3.sub (a b : Vec3) : Vec3 :=
  { x := a.x - b.x, y := a.y - b.y, z := a.z - b.z }

/-- `Vector3.multiplyScalar`. -/
def Vec3.multiplyScalar (v : Vec3) (s : ℝ) : Vec3 :=
  { x := v.x * s, y := v.y * s, z := v.z * s }

/-- `Vector3.divideScalar(s)` = `multiplyScalar(1/s)`. -/
def Vec3.divideScalar (v : Vec3) (s : ℝ) : Vec3 :=
  v.multiplyScalar (1 / s)

/-- `Vector3.dot`. -/
def Vec3.dot (a b : Vec3) : ℝ :=
  a.x * b.x + a.y * b.y + a.z * b.z

/-- `Vector3.lengthSq`. -/
def Vec3.lengthSq (v : Vec3) : ℝ :=
  v.x * v.x + v.y * v.y + v.z * v.z

/-- `Vector3.length`. -/
def Vec3.length (v : Vec3) : ℝ :=
  Real.sqrt v.lengthSq

/-- `Vector3.normalize()` = `divideScalar(length() || 1)`: the JS `|| 1`
replaces a zero length by 1, so the zero vector normalizes to itself. -/
def Vec3.normalize (v : Vec3) : Vec3 :=
  v.divideScalar (if v.length = 0 then 1 else v.length)

/-- `new THREE.Vector3().crossVectors(a, b)`. -/
def Vec3.cross (a b : Vec3) : Vec3 :=
  { x := a.y * b.z - a.z * b.y
    y := a.z * b.x - a.x * b.z
    z := a.x * b.y - a.y * b.x }

/-- `Vector3.distanceTo`. -/
def Vec3.distanceTo (a b : Vec3) : ℝ :=
  Real.sqrt ((a.x - b.x) * (a.x - b.x) + (a.y - b.y) * (a.y - b.y) +
    (a.z - b.z) * (a.z - b.z))

/-- `Vector3.lerp(v, alpha)`: `this.x += (v.x - this.x) * alpha`, per
component. -/
def Vec3.lerp (a b : Vec3) (alpha : ℝ) : Vec3 :=
  { x := a.x + (b.x - a.x) * alpha
    y := a.y + (b.y - a.y) * alpha
    z := a.z + (b.z - a.z) * alpha }

/-! three.js `Quaternion` operations used by the sources. -/

/-- `Quaternion.dot`. -/
def Quat.dot (a b : Quat) : ℝ :=
  a.x * b.x + a.y * b.y + a.z * b.z + a.w * b.w

/-- `Quaternion.lengthSq`. -/
def Quat.normSq (q : Quat) : ℝ :=
  q.x * q.x + q.y * q.y + q.z * q.z + q.w * q.w

/-- `Quaternion.length`. -/
def Quat.length (q : Quat) : ℝ :=
  Real.sqrt q.normSq

/-- `Quaternion.normalize()`: a zero-length quaternion becomes the identity
(0,0,0,1); otherwise all components are divided by the length. -/
def Quat.normalize (q : Quat) : Quat :=
  if q.length = 0 then { x := 0, y := 0, z := 0, w := 1 }
  else { x := q.x * (1 / q.length), y := q.y * (1 / q.length)
         z := q.z * (1 / q.length), w := q.w * (1 / q.length) }

/-- `Quaternion.multiply(q)` = `multiplyQuaternions(this, q)` (Hamilton
product, `this` on the left). -/
def Quat.mul (a b : Quat) : Quat :=
  { x := a.x * b.w + a.w * b.x + a.y * b.z - a.z * b.y
    y := a.y * b.w + a.w * b.y + a.z * b.x - a.x * b.z
    z := a.z * b.w + a.w * b.z + a.x * b.y - a.y * b.x
    w := a.w * b.w - a.x * b.x - a.y * b.y - a.z * b.z }

/-- `Quaternion.setFromAxisAngle(axis, angle)` (axis assumed normalized). -/
def quatFromAxisAngle (axis : Vec3) (angle : ℝ) : Quat :=
  { x := axis.x * Real.sin (angle / 2)
    y := axis.y * Real.sin (angle / 2)
    z := axis.z * Real.sin (angle / 2)
    w := Real.cos (angle / 2) }

/-- three.js `Euler` with the default XYZ order (the only order the app
uses). -/
structure Euler where
  x : ℝ
  y : ℝ
  z : ℝ


/-- `Quaternion.setFromEuler` for the default XYZ order. -/
def quatFromEuler (e : Euler) : Quat :=
  { x := Real.sin (e.x / 2) * Real.cos (e.y / 2) * Real.cos (e.z / 2) +
         Real.cos (e.x / 2) * Real.sin (e.y / 2) * Real.sin (e.z / 2)
    y := Real.cos (e.x / 2) * Real.sin (e.y / 2) * Real.cos (e.z / 2) -
         Real.sin (e.x / 2) * Real.cos (e.y / 2) * Real.sin (e.z / 2)
    z := Real.cos (e.x / 2) * Real.cos (e.y / 2) * Real.sin (e.z / 2) +
         Real.sin (e.x / 2) * Real.sin (e.y / 2) * Real.cos (e.z / 2)
    w := Real.cos (e.x / 2) * Real.cos (e.y / 2) * Real.cos (e.z / 2) -
         Real.sin (e.x / 2) * Real.sin (e.y / 2) * Real.sin (e.z / 2) }

/-- Row-major 3x3 rotation part of a three.js `Matrix4`. -/
structure RotationMatrix where
  m11 : ℝ
  m12 : ℝ
  m13 : ℝ
  m21 : ℝ
  m22 : ℝ
  m23 : ℝ
  m31 : ℝ
  m32 : ℝ
  m33 : ℝ

/-- `Matrix4.makeBasis(xAxis, yAxis, zAxis)`: the axes become the columns. -/
def makeBasis (xAxis yAxis zAxis : Vec3) : RotationMatrix :=
  { m11 := xAxis.x, m12 := yAxis.x, m13 := zAxis.x
    m21 := xAxis.y, m22 := yAxis.y, m23 := zAxis.y
    m31 := xAxis.z, m32 := yAxis.z, m33 := zAxis.z }

/-- `Quaternion.setFromRotationMatrix`, translated branch by branch from
three.js. -/
def quatFromRotationMatrix (m : RotationMatrix) : Quat :=
  let trace := m.m11 + m.m22 + m.m33
  if 0 < trace then
    let s := 0.5 / Real.sqrt (trace + 1.0)
    { x := (m.m32 - m.m23) * s, y := (m.m13 - m.m31) * s
      z := (m.m21 - m.m12) * s, w := 0.25 / s }
  else if m.m22 < m.m11 ∧ m.m33 < m.m11 then
    let s := 2.0 * Real.sqrt (1.0 + m.m11 - m.m22 - m.m33)
    { x := 0.25 * s, y := (m.m12 + m.m21) / s
      z := (m.m13 + m.m31) / s, w := (m.m32 - m.m23) / s }
  else if m.m33 < m.m22 then
    let s := 2.0 * Real.sqrt (1.0 + m.m22 - m.m11 - m.m33)
    { x := (m.m12 + m.m21) / s, y := 0.25 * s
      z := (m.m23 + m.m32) / s, w := (m.m13 - m.m31) / s }
  else
    let s := 2.0 * Real.sqrt (1.0 + m.m33 - m.m11 - m.m22)
    { x := (m.m13 + m.m31) / s, y := (m.m23 + m.m32) / s
      z := 0.25 * s, w := (m.m21 - m.m12) / s }

/-- JS `Number.EPSILON` = 2^(-52). -/
def numberEpsilon : ℝ := 2 ^ (-52 : ℤ)

/-- JS `Math.atan2(y, x)`. -/
def atan2 (y x : ℝ) : ℝ :=
  if 0 < x then Real.arctan (y / x)
  else if x < 0 then
    (if 0 ≤ y then Real.arctan (y / x) + Real.pi
     else Real.arctan (y / x) - Real.pi)
  else
    (if 0 < y then Real.pi / 2 else if y < 0 then -(Real.pi / 2) else 0)

/-- `Quaternion.slerp(qb, t)`, translated branch by branch from three.js:
sign alignment of the target, the aligned-quaternions early return, the
small-angle linear-interpolation fallback (with renormalization) and the
general spherical interpolation. -/
def Quat.slerp (q qb : Quat) (t : ℝ) : Quat :=
  if t = 0 then q
  else if t = 1 then qb
  else
    let cosHalfTheta0 := q.w * qb.w + q.x * qb.x + q.y * qb.y + q.z * qb.z
    let this1 : Quat :=
      if cosHalfTheta0 < 0 then { x := -qb.x, y := -qb.y, z := -qb.z, w := -qb.w }
      else qb
    let cosHalfTheta := if cosHalfTheta0 < 0 then -cosHalfTheta0 else cosHalfTheta0
    if 1 ≤ cosHalfTheta then q
    else
      let sqrSinHalfTheta := 1 - cosHalfTheta * cosHalfTheta
      if sqrSinHalfTheta ≤ numberEpsilon then
        Quat.normalize
          { x := (1 - t) * q.x + t * this1.x
            y := (1 - t) * q.y + t * this1.y
            z := (1 - t) * q.z + t * this1.z
            w := (1 - t) * q.w + t * this1.w }
      else
        let sinHalfTheta := Real.sqrt sqrSinHalfTheta
        let halfTheta := atan2 sinHalfTheta cosHalfTheta
        let ratioA := Real.sin ((1 - t) * halfTheta) / sinHalfTheta
        let ratioB := Real.sin (t * halfTheta) / sinHalfTheta
        { x := q.x * ratioA + this1.x * ratioB
          y := q.y * ratioA + this1.y * ratioB
          z := q.z * ratioA + this1.z * ratioB
          w := q.w * ratioA + this1.w * ratioB }

/-- `THREE.MathUtils.lerp(x, y, t) = (1 - t) * x + t * y`. -/
def mathUtilsLerp (x y t : ℝ) : ℝ :=
  (1 - t) * x + t * y

/-! `src/utils/math.ts` -/

/-- The `ANCHOR_POINTS` role table of `src/utils/math.ts`. -/
structure AnchorPoints where
  NOSE_BRIDGE : Nat
  NOSE_TIP : Nat
  LEFT_EYE : Nat
  RIGHT_EYE : Nat
  LEFT_EAR : Nat
  RIGHT_EAR : Nat
  LEFT_PUPIL : Nat
  RIGHT_PUPIL : Nat

/-- `ANCHOR_POINTS` from `src/utils/math.ts`. -/
def ANCHOR_POINTS : AnchorPoints :=
  { NOSE_BRIDGE := 168
    NOSE_TIP := 4
    LEFT_EYE := 33
    RIGHT_EYE := 263
    LEFT_EAR := 234
    RIGHT_EAR := 454
    LEFT_PUPIL := 468
    RIGHT_PUPIL := 473 }

/-- `landmarkToVector3` from `src/utils/math.ts`. -/
def landmarkToVector3 (landmark : Landmark) (width height : ℝ) : Vec3 :=
  { x := (landmark.x - 0.5) * width
    y := -(landmark.y - 0.5) * height
    z := -landmark.z * width }

/-- The basis construction inside `calculateFaceQuaternion`
(`src/utils/math.ts` lines 74-90): x axis from eye corners, provisional
y axis from the nose, z as their cross product, then y re-derived as
z x x. Returns (xAxis, yAxis, zAxis) after the re-orthogonalization. -/
def faceAxes (left right noseBridge noseTip : Vec3) : Vec3 × Vec3 × Vec3 :=
  let xAxis := (right.sub left).normalize
  let yAxisProvisional := (noseBridge.sub noseTip).normalize
  let zAxis := (xAxis.cross yAxisProvisional).normalize
  let yAxis := (zAxis.cross xAxis).normalize
  (xAxis, yAxis, zAxis)

/-- Body of `calculateFaceQuaternion` after the four landmark lookups:
basis construction, `makeBasis`, `setFromRotationMatrix`. -/
def calculateFaceQuaternionCore (left right noseBridge noseTip : Vec3) : Quat :=
  let axes := faceAxes left right noseBridge noseTip
  quatFromRotationMatrix (makeBasis axes.1 axes.2.1 axes.2.2)

/-- `calculateFaceQuaternion` from `src/utils/math.ts`.  The JS code indexes
`landmarks[i]` at the fixed `ANCHOR_POINTS` constants with no bounds check;
an out-of-range access yields no landmark and the computation fails, which
the embedding models with `Option`. -/
def calculateFaceQuaternion (landmarks : List Landmark) (width height : ℝ) :
    Option Quat := do
  let lmLeft ← landmarks[ANCHOR_POINTS.LEFT_EYE]?
  let lmRight ← landmarks[ANCHOR_POINTS.RIGHT_EYE]?
  let lmNoseBridge ← landmarks[ANCHOR_POINTS.NOSE_BRIDGE]?
  let lmNoseTip ← landmarks[ANCHOR_POINTS.NOSE_TIP]?
  pure (calculateFaceQuaternionCore
    (landmarkToVector3 lmLeft width height)
    (landmarkToVector3 lmRight width height)
    (landmarkToVector3 lmNoseBridge width height)
    (landmarkToVector3 lmNoseTip width height))

/-! `src/components/VirtualTryOn.tsx`: the detection callback `onResults`. -/

/-- The `faceMatrix` state published by `onResults`. -/
structure FaceMatrix where
  position : Vec3
  rotation : Quat
  faceWidth : ℝ
  pupilLeft : Vec3
  pupilRight : Vec3

/-- The pose computation of `onResults` (lines 178-200): rotation via
`calculateFaceQuaternion`, face width from the temple landmarks, pupil
positions, and the anchor as the componentwise pupil midpoint. -/
def onResultsPose (landmarks : List Landmark) (width height : ℝ) :
    Option FaceMatrix := do
  let rotation ← calculateFaceQuaternion landmarks width height
  let lmLeftTemple ← landmarks[ANCHOR_POINTS.LEFT_EAR]?
  let lmRightTemple ← landmarks[ANCHOR_POINTS.RIGHT_EAR]?
  let leftTemple := landmarkToVector3 lmLeftTemple width height
  let rightTemple := landmarkToVector3 lmRightTemple width height
  let faceWidth := leftTemple.distanceTo rightTemple
  let lmLeftPupil ← landmarks[ANCHOR_POINTS.LEFT_PUPIL]?
  let lmRightPupil ← landmarks[ANCHOR_POINTS.RIGHT_PUPIL]?
  let leftPupil := landmarkToVector3 lmLeftPupil width height
  let rightPupil := landmarkToVector3 lmRightPupil width height
  let position : Vec3 :=
    { x := (leftPupil.x + rightPupil.x) / 2
      y := (leftPupil.y + rightPupil.y) / 2
      z := (leftPupil.z + rightPupil.z) / 2 }
  pure { position := position, rotation := rotation, faceWidth := faceWidth
         pupilLeft := leftPupil, pupilRight := rightPupil }

/-- One invocation of the `onResults` callback acting on the published
`faceMatrix` state: with no detected face it returns early and the state is
left unchanged; otherwise it publishes the newly computed pose (and if the
pose computation fails, `setFaceMatrix` is never reached and the state is
likewise unchanged). -/
def onResultsUpdate (multiFaceLandmarks : List (List Landmark))
    (width height : ℝ) (faceMatrix : Option FaceMatrix) : Option FaceMatrix :=
  match multiFaceLandmarks with
  | [] => faceMatrix
  | landmarks :: _ =>
    match onResultsPose landmarks width height with
    | some fm => some fm
    | none => faceMatrix

/-! `src/components/GlassesModel.tsx`: the `useFrame` tick. -/

/-- A rigid pose: the transform of the `groupRef` object (position,
quaternion, uniform scale), also used for the raw target pose. -/
structure Pose where
  position : Vec3
  quaternion : Quat
  scale : ℝ

/-- The props `GlassesModel` receives from `VirtualTryOn`. -/
structure GlassesProps where
  position : Vec3
  rotation : Quat
  faceWidth : ℝ
  rotationOffset : Option Euler

/-- `DAMPING` from `GlassesModel.tsx`. -/
def DAMPING : ℝ := 0.9

/-- The position target of the tick: the anchor with the constant
anti-clipping Z offset (+10) and downward Y nudge (-5). -/
def targetPosition (position : Vec3) : Vec3 :=
  { x := position.x, y := position.y - 5, z := position.z + 10 }

/-- The fixed 180-degree correction about the up axis. -/
def correctionY : Quat :=
  quatFromAxisAngle { x := 0, y := 1, z := 0 } Real.pi

/-- The fixed -90-degree correction about the right axis. -/
def correctionX : Quat :=
  quatFromAxisAngle { x := 1, y := 0, z := 0 } (-(Real.pi / 2))

/-- The composed orientation target of the tick (`GlassesModel.tsx` lines
53-70): the face quaternion right-multiplied by `correctionY`, then
`correctionX`, then the per-model offset when present. -/
def targetQuaternion (rotation : Quat) (rotationOffset : Option Euler) : Quat :=
  let q1 := rotation.mul correctionY
  let q2 := q1.mul correctionX
  match rotationOffset with
  | some offset => q2.mul (quatFromEuler offset)
  | none => q2

/-- The smoothing core of the tick, i.e. the Temporal Filter update: lerp the
position by `DAMPING`, slerp the quaternion by `DAMPING`, lerp the scale by
0.1, each toward the corresponding component of the raw target pose. -/
def tfUpdate (raw : Pose) (st : Pose) : Pose :=
  { position := st.position.lerp raw.position DAMPING
    quaternion := st.quaternion.slerp raw.quaternion DAMPING
    scale := mathUtilsLerp st.scale raw.scale 0.1 }

/-- One `useFrame` tick of `GlassesModel` (lines 36-86): position lerp toward
the offset anchor, quaternion slerp toward the composed target, and — only
when the cached native width is positive — scale lerp toward
`faceWidth / nativeWidth`. -/
def useFrameTick (nativeWidth : ℝ) (props : GlassesProps) (st : Pose) : Pose :=
  { position := st.position.lerp (targetPosition props.position) DAMPING
    quaternion :=
      st.quaternion.slerp (targetQuaternion props.rotation props.rotationOffset) DAMPING
    scale :=
      if 0 < nativeWidth then
        mathUtilsLerp st.scale (props.faceWidth / nativeWidth) 0.1
      else st.scale }

/-- The scale resolution of the tick in isolation: `faceWidth / nativeWidth`
when the native bounding-box width is known (positive), "not ready"
otherwise. -/
def resolvedScale (nativeWidth faceWidth : ℝ) : Option ℝ :=
  if 0 < nativeWidth then some (faceWidth / nativeWidth) else none

/-- An entry of the hardcoded `GLASSES_LIST` of `VirtualTryOn.tsx`. -/
structure GlassesItem where
  id : Nat
  name : String
  scale : ℝ
  rotationOffset : Euler

/-- `GLASSES_LIST` from `VirtualTryOn.tsx` (model URLs omitted; every entry
carries a per-model rotation offset). -/
def GLASSES_LIST : List GlassesItem :=
  [ { id := 1, name := "Classic Aviator", scale := 1.0
      rotationOffset := { x := -Real.pi * 3 / 4, y := 0, z := Real.pi } }
  , { id := 2, name := "Modern Square", scale := 1.0
      rotationOffset := { x := -(Real.pi / 2), y := 0, z := 0 } }
  , { id := 3, name := "Retro Round", scale := 1.0
      rotationOffset := { x := -(Real.pi / 2), y := 0, z := 0 } }
  , { id := 4, name := "Bold Wayfarer", scale := 1.0
      rotationOffset := { x := -(Real.pi / 2), y := 0, z := 0 } }
  , { id := 5, name := "Slim Cat-Eye", scale := 1.0
      rotationOffset := { x := -(Real.pi / 2), y := 0, z := 0 } } ]

end

/-! Basic algebraic facts about the embedded three.js operations. -/

theorem Vec3.lengthSq_nonneg (v : Vec3) : 0 ≤ v.lengthSq := by
  have hx := mul_self_nonneg v.x
  have hy := mul_self_nonneg v.y
  have hz := mul_self_nonneg v.z
  simp only [Vec3.lengthSq]
  linarith

theorem Vec3.length_eq_zero_iff (v : Vec3) : v.length = 0 ↔ v.lengthSq = 0 := by
  constructor
  · intro h
    have h2 := Real.sqrt_eq_zero'.mp h
    have h3 := v.lengthSq_nonneg
    linarith
  · intro h
    simp [Vec3.length, h]

theorem Vec3.mul_self_length (v : Vec3) : v.length * v.length = v.lengthSq :=
  Real.mul_self_sqrt v.lengthSq_nonneg

theorem Vec3.dot_self (v : Vec3) : v.dot v = v.lengthSq := rfl

theorem Vec3.dot_normalize_self (v : Vec3) (hv : v.lengthSq ≠ 0) :
    v.normalize.dot v.normalize = 1 := by
  have hlen : v.length ≠ 0 := fun h => hv ((Vec3.length_eq_zero_iff v).mp h)
  have hsq := v.mul_self_length
  simp only [Vec3.normalize, Vec3.divideScalar, Vec3.multiplyScalar, Vec3.dot,
    if_neg hlen]
  field_simp
  rw [hsq]
  rfl

theorem Vec3.normalize_of_lengthSq_one (v : Vec3) (hv : v.lengthSq = 1) :
    v.normalize = v := by
  have hlen : v.length = 1 := by simp [Vec3.length, hv]
  cases v with
  | mk a b c =>
    simp only [Vec3.normalize, Vec3.divideScalar, Vec3.multiplyScalar, hlen]
    norm_num

theorem Vec3.dot_comm (a b : Vec3) : a.dot b = b.dot a := by
  simp only [Vec3.dot]; ring

theorem Vec3.cross_dot_left (a b : Vec3) : (a.cross b).dot a = 0 := by
  simp only [Vec3.cross, Vec3.dot]; ring

theorem Vec3.cross_dot_right (a b : Vec3) : (a.cross b).dot b = 0 := by
  simp only [Vec3.cross, Vec3.dot]; ring

theorem Vec3.lengthSq_cross (a b : Vec3) :
    (a.cross b).lengthSq = a.lengthSq * b.lengthSq - (a.dot b) * (a.dot b) := by
  simp only [Vec3.cross, Vec3.lengthSq, Vec3.dot]; ring

theorem Quat.dot_self_eq_normSq (q : Quat) : q.dot q = q.normSq := rfl

theorem Quat.normSq_nonneg (q : Quat) : 0 ≤ q.normSq := by
  have hx := mul_self_nonneg q.x
  have hy := mul_self_nonneg q.y
  have hz := mul_self_nonneg q.z
  have hw := mul_self_nonneg q.w
  simp only [Quat.normSq]
  linarith

/-- Lagrange identity in dimension 4: the Cauchy-Schwarz defect of two
quaternions is a sum of six squares. -/
theorem Quat.cauchy_schwarz_defect (q r : Quat) :
    q.normSq * r.normSq - (q.dot r) * (q.dot r) =
      (q.x * r.y - q.y * r.x) ^ 2 + (q.x * r.z - q.z * r.x) ^ 2 +
      (q.x * r.w - q.w * r.x) ^ 2 + (q.y * r.z - q.z * r.y) ^ 2 +
      (q.y * r.w - q.w * r.y) ^ 2 + (q.z * r.w - q.w * r.z) ^ 2 := by
  simp only [Quat.normSq, Quat.dot]; ring

theorem Quat.dot_sq_le_one (q r : Quat) (hq : q.normSq = 1) (hr : r.normSq = 1) :
    (q.dot r) ^ 2 ≤ 1 := by
  have h := Quat.cauchy_schwarz_defect q r
  rw [hq, hr] at h
  nlinarith [sq_nonneg (q.x * r.y - q.y * r.x), sq_nonneg (q.x * r.z - q.z * r.x),
    sq_nonneg (q.x * r.w - q.w * r.x), sq_nonneg (q.y * r.z - q.z * r.y),
    sq_nonneg (q.y * r.w - q.w * r.y), sq_nonneg (q.z * r.w - q.w * r.z)]

/-- C6: the Coordinate Mapper returns exactly
((x - 0.5) * w, -(y - 0.5) * h, -z * w); in particular x = 0 and x = 1 map to
-w/2 and w/2, y = 0 and y = 1 map to h/2 and -h/2 (world Y flipped so up is
positive), and z is scaled by -w. -/
theorem c6_coordinate_mapper (lm : Landmark) (w h : ℝ) :
    landmarkToVector3 lm w h =
      { x := (lm.x - 0.5) * w, y := -(lm.y - 0.5) * h, z := -lm.z * w } ∧
    (landmarkToVector3 { x := 0, y := lm.y, z := lm.z } w h).x = -(w / 2) ∧
    (landmarkToVector3 { x := 1, y := lm.y, z := lm.z } w h).x = w / 2 ∧
    (landmarkToVector3 { x := lm.x, y := 0, z := lm.z } w h).y = h / 2 ∧
    (landmarkToVector3 { x := lm.x, y := 1, z := lm.z } w h).y = -(h / 2) ∧
    (landmarkToVector3 lm w h).z = -lm.z * w := by
  refine ⟨rfl, ?_, ?_, ?_, ?_, rfl⟩ <;> simp [landmarkToVector3] <;> ring

/-- C4: scale resolution returns exactly faceWidth / nativeWidth when the
native width is positive (natively 100 wide at face width 150 resolves to
scale 3/2 = 1.5), and when the native width is zero (not yet known) it
returns "not ready" and the tick leaves the applied scale untouched. -/
theorem c4_scale_resolution (nativeWidth faceWidth : ℝ) (hpos : 0 < nativeWidth) :
    resolvedScale nativeWidth faceWidth = some (faceWidth / nativeWidth) ∧
    resolvedScale 100 150 = some (3 / 2) ∧
    (∀ fw : ℝ, resolvedScale 0 fw = none) ∧
    (∀ (props : GlassesProps) (st : Pose), (useFrameTick 0 props st).scale = st.scale) := by
  refine ⟨by simp [resolvedScale, hpos], ?_, ?_, ?_⟩
  · rw [resolvedScale, if_pos (by norm_num)]
    norm_num
  · intro fw
    simp [resolvedScale]
  · intro props st
    simp [useFrameTick]

theorem c4_scale_resolution_witness :
    0 < (100 : ℝ) ∧ resolvedScale 100 150 = some (150 / 100) :=
  ⟨by norm_num, (c4_scale_resolution 100 150 (by norm_num)).1⟩

/-- C3: for every face quaternion and every asset of the hardcoded list, the
composed orientation target is the face quaternion right-multiplied by the
180-degree up-axis correction, then the -90-degree right-axis correction,
then the asset's calibration offset, in exactly that order; and the tick
slerps the rendered orientation toward exactly that composition. -/
theorem c3_composition_order (q : Quat) (item : GlassesItem)
    (hmem : item ∈ GLASSES_LIST) (nativeWidth : ℝ) (pos : Vec3) (fw : ℝ)
    (st : Pose) :
    targetQuaternion q (some item.rotationOffset) =
      ((q.mul (quatFromAxisAngle { x := 0, y := 1, z := 0 } Real.pi)).mul
          (quatFromAxisAngle { x := 1, y := 0, z := 0 } (-(Real.pi / 2)))).mul
        (quatFromEuler item.rotationOffset) ∧
    (useFrameTick nativeWidth
        { position := pos, rotation := q, faceWidth := fw
          rotationOffset := some item.rotationOffset } st).quaternion =
      st.quaternion.slerp
        (((q.mul (quatFromAxisAngle { x := 0, y := 1, z := 0 } Real.pi)).mul
            (quatFromAxisAngle { x := 1, y := 0, z := 0 } (-(Real.pi / 2)))).mul
          (quatFromEuler item.rotationOffset)) DAMPING := by
  constructor
  · rfl
  · rfl

theorem c3_composition_order_witness :
    ∃ item : GlassesItem, item ∈ GLASSES_LIST ∧
      targetQuaternion { x := 0, y := 0, z := 0, w := 1 } (some item.rotationOffset) =
        ((Quat.mul { x := 0, y := 0, z := 0, w := 1 }
            (quatFromAxisAngle { x := 0, y := 1, z := 0 } Real.pi)).mul
            (quatFromAxisAngle { x := 1, y := 0, z := 0 } (-(Real.pi / 2)))).mul
          (quatFromEuler item.rotationOffset) := by
  refine ⟨{ id := 1, name := "Classic Aviator", scale := 1.0
            rotationOffset := { x := -Real.pi * 3 / 4, y := 0, z := Real.pi } }, ?_, ?_⟩
  · simp [GLASSES_LIST]
  · exact (c3_composition_order { x := 0, y := 0, z := 0, w := 1 } _
      (by simp [GLASSES_LIST]) 0 { x := 0, y := 0, z := 0 } 0
      { position := { x := 0, y := 0, z := 0 }
        quaternion := { x := 0, y := 0, z := 0, w := 1 }, scale := 1 }).1

/-- C8: the three basis axes produced by the orientation estimator after the
re-orthogonalization step are pairwise orthogonal (exactly, over the
idealized real arithmetic) for every non-degenerate keypoint geometry. -/
theorem c8_axes_pairwise_orthogonal (left right noseBridge noseTip : Vec3)
    (hx : (right.sub left).lengthSq ≠ 0)
    (hz : (((right.sub left).normalize).cross
      ((noseBridge.sub noseTip).normalize)).lengthSq ≠ 0) :
    ((faceAxes left right noseBridge noseTip).1).dot
        (faceAxes left right noseBridge noseTip).2.1 = 0 ∧
    ((faceAxes left right noseBridge noseTip).1).dot
        (faceAxes left right noseBridge noseTip).2.2 = 0 ∧
    ((faceAxes left right noseBridge noseTip).2.1).dot
        (faceAxes left right noseBridge noseTip).2.2 = 0 := by
  refine ⟨?_, ?_, ?_⟩ <;>
    simp only [faceAxes, Vec3.normalize, Vec3.divideScalar, Vec3.multiplyScalar,
      Vec3.cross, Vec3.dot] <;>
    ring

theorem sqrt_four : Real.sqrt 4 = 2 := by
  rw [show (4 : ℝ) = 2 ^ 2 by norm_num, Real.sqrt_sq (by norm_num : (0 : ℝ) ≤ 2)]

theorem c8_axes_pairwise_orthogonal_witness :
    ((({ x := 1, y := 0, z := 0 } : Vec3).sub { x := -1, y := 0, z := 0 }).lengthSq ≠ 0) ∧
    (((({ x := 1, y := 0, z := 0 } : Vec3).sub { x := -1, y := 0, z := 0 }).normalize.cross
        ((({ x := 0, y := 1, z := 0 } : Vec3).sub { x := 0, y := -1, z := 0 }).normalize)).lengthSq ≠ 0) ∧
    (((faceAxes { x := -1, y := 0, z := 0 } { x := 1, y := 0, z := 0 }
          { x := 0, y := 1, z := 0 } { x := 0, y := -1, z := 0 }).1).dot
        (faceAxes { x := -1, y := 0, z := 0 } { x := 1, y := 0, z := 0 }
          { x := 0, y := 1, z := 0 } { x := 0, y := -1, z := 0 }).2.1 = 0 ∧
      ((faceAxes { x := -1, y := 0, z := 0 } { x := 1, y := 0, z := 0 }
          { x := 0, y := 1, z := 0 } { x := 0, y := -1, z := 0 }).1).dot
        (faceAxes { x := -1, y := 0, z := 0 } { x := 1, y := 0, z := 0 }
          { x := 0, y := 1, z := 0 } { x := 0, y := -1, z := 0 }).2.2 = 0 ∧
      ((faceAxes { x := -1, y := 0, z := 0 } { x := 1, y := 0, z := 0 }
          { x := 0, y := 1, z := 0 } { x := 0, y := -1, z := 0 }).2.1).dot
        (faceAxes { x := -1, y := 0, z := 0 } { x := 1, y := 0, z := 0 }
          { x := 0, y := 1, z := 0 } { x := 0, y := -1, z := 0 }).2.2 = 0) := by
  have h1 : ((({ x := 1, y := 0, z := 0 } : Vec3).sub { x := -1, y := 0, z := 0 }).lengthSq ≠ 0) := by
    norm_num [Vec3.sub, Vec3.lengthSq]
  have h2 : (((({ x := 1, y := 0, z := 0 } : Vec3).sub { x := -1, y := 0, z := 0 }).normalize.cross
      ((({ x := 0, y := 1, z := 0 } : Vec3).sub { x := 0, y := -1, z := 0 }).normalize)).lengthSq ≠ 0) := by
    norm_num [Vec3.sub, Vec3.normalize, Vec3.length, Vec3.lengthSq, Vec3.divideScalar,
      Vec3.multiplyScalar, Vec3.cross, sqrt_four]
  exact ⟨h1, h2, c8_axes_pairwise_orthogonal _ _ _ _ h1 h2⟩

/-! C2: the degenerate eye-corner input. -/

/-- A keypoint set whose LEFT_EYE (33) and RIGHT_EYE (263) entries carry
identical coordinates (the degenerate input of the claim); the nose bridge
(168) and nose tip (4) are distinct so only the eye axis is degenerate. -/
def c2fn (i : Nat) : Landmark :=
  if i = 168 then { x := 0.5, y := 0.25, z := 0 }
  else if i = 4 then { x := 0.5, y := 0.75, z := 0 }
  else { x := 0.25, y := 0.5, z := 0 }

/-- The degenerate 474-landmark sequence for C2. -/
def c2lms : List Landmark := List.ofFn (fun i : Fin 474 => c2fn i.val)

/-- C2, evaluated on the failing input: with the two eye-corner keypoints
(indices 33 and 263) carrying identical coordinates, `calculateFaceQuaternion`
performs no degeneracy detection and returns the constant quaternion
(0, 0, 1/2, 0) derived from the collapsed basis — a non-unit quaternion,
hence not a rotation (no NaN arises only because the three.js `normalize`
maps a zero-length vector to itself instead of dividing by zero); no
`DegenerateGeometry` condition exists anywhere in the code. -/
theorem c2lms_getElem (i : Nat) (hi : i < 474) : c2lms[i]? = some (c2fn i) := by
  rw [c2lms, List.getElem?_ofFn, List.ofFnNthVal, dif_pos hi]

theorem anchorLeftEye : ANCHOR_POINTS.LEFT_EYE = 33 := rfl

theorem anchorRightEye : ANCHOR_POINTS.RIGHT_EYE = 263 := rfl

theorem anchorNoseBridge : ANCHOR_POINTS.NOSE_BRIDGE = 168 := rfl

theorem anchorNoseTip : ANCHOR_POINTS.NOSE_TIP = 4 := rfl

theorem anchorLeftEar : ANCHOR_POINTS.LEFT_EAR = 234 := rfl

theorem anchorRightEar : ANCHOR_POINTS.RIGHT_EAR = 454 := rfl

theorem anchorLeftPupil : ANCHOR_POINTS.LEFT_PUPIL = 468 := rfl

theorem anchorRightPupil : ANCHOR_POINTS.RIGHT_PUPIL = 473 := rfl

theorem c2_degenerate_returns_non_rotation :
    c2lms[(33 : Nat)]? = some { x := 0.25, y := 0.5, z := 0 } ∧
    c2lms[(263 : Nat)]? = some { x := 0.25, y := 0.5, z := 0 } ∧
    calculateFaceQuaternion c2lms 2 2 = some { x := 0, y := 0, z := 1 / 2, w := 0 } ∧
    ({ x := 0, y := 0, z := 1 / 2, w := 0 } : Quat).normSq ≠ 1 := by
  have h33 : c2lms[(33 : Nat)]? = some { x := 0.25, y := 0.5, z := 0 } := by
    rw [c2lms_getElem 33 (by norm_num)]
    norm_num [c2fn]
  have h263 : c2lms[(263 : Nat)]? = some { x := 0.25, y := 0.5, z := 0 } := by
    rw [c2lms_getElem 263 (by norm_num)]
    norm_num [c2fn]
  have h168 : c2lms[(168 : Nat)]? = some { x := 0.5, y := 0.25, z := 0 } := by
    rw [c2lms_getElem 168 (by norm_num)]
    norm_num [c2fn]
  have h4 : c2lms[(4 : Nat)]? = some { x := 0.5, y := 0.75, z := 0 } := by
    rw [c2lms_getElem 4 (by norm_num)]
    norm_num [c2fn]
  refine ⟨h33, h263, ?_, by norm_num [Quat.normSq]⟩
  rw [calculateFaceQuaternion]
  simp only [anchorLeftEye, anchorRightEye, anchorNoseBridge, anchorNoseTip]
  rw [h33, h263, h168, h4]
  refine congrArg some ?_
  norm_num [calculateFaceQuaternionCore, faceAxes, landmarkToVector3,
    Vec3.sub, Vec3.normalize, Vec3.length, Vec3.lengthSq, Vec3.divideScalar,
    Vec3.multiplyScalar, Vec3.cross, makeBasis, quatFromRotationMatrix,
    Real.sqrt_zero, Real.sqrt_one]

/-- C5: whenever `onResults` publishes a pose, its anchor position is the
componentwise average of the mapped LEFT_PUPIL and RIGHT_PUPIL world
positions. -/
theorem c5_anchor_is_pupil_midpoint (landmarks : List Landmark) (w h : ℝ)
    (fm : FaceMatrix) (hfm : onResultsPose landmarks w h = some fm)
    (lmL lmR : Landmark)
    (hL : landmarks[(468 : Nat)]? = some lmL)
    (hR : landmarks[(473 : Nat)]? = some lmR) :
    fm.position =
      { x := ((landmarkToVector3 lmL w h).x + (landmarkToVector3 lmR w h).x) / 2
        y := ((landmarkToVector3 lmL w h).y + (landmarkToVector3 lmR w h).y) / 2
        z := ((landmarkToVector3 lmL w h).z + (landmarkToVector3 lmR w h).z) / 2 } := by
  rw [onResultsPose] at hfm
  simp only [anchorLeftEar, anchorRightEar, anchorLeftPupil, anchorRightPupil] at hfm
  cases hq : calculateFaceQuaternion landmarks w h with
  | none => rw [hq] at hfm; simp at hfm
  | some rot =>
    rw [hq] at hfm
    cases hT1 : landmarks[(234 : Nat)]? with
    | none => rw [hT1] at hfm; simp at hfm
    | some lT1 =>
      rw [hT1] at hfm
      cases hT2 : landmarks[(454 : Nat)]? with
      | none => rw [hT2] at hfm; simp at hfm
      | some lT2 =>
        rw [hT2, hL, hR] at hfm
        rw [← Option.some.inj hfm]

/-! The C5 witness keypoint set: eye and nose landmarks forming the identity
basis, pupils mapping to (-30, 5, 0) and (30, 5, 0) at frame 100 x 100. -/

/-- Keypoints for the C5 witness. -/
def c5fn (i : Nat) : Landmark :=
  if i = 33 then { x := 0.49, y := 0.5, z := 0 }
  else if i = 263 then { x := 0.51, y := 0.5, z := 0 }
  else if i = 168 then { x := 0.5, y := 0.495, z := 0 }
  else if i = 4 then { x := 0.5, y := 0.505, z := 0 }
  else if i = 468 then { x := 0.2, y := 0.45, z := 0 }
  else if i = 473 then { x := 0.8, y := 0.45, z := 0 }
  else { x := 0.5, y := 0.5, z := 0 }

/-- The 474-landmark witness sequence for C5 (and C7). -/
def c5lms : List Landmark := List.ofFn (fun i : Fin 474 => c5fn i.val)

theorem c5lms_getElem (i : Nat) (hi : i < 474) : c5lms[i]? = some (c5fn i) := by
  rw [c5lms, List.getElem?_ofFn, List.ofFnNthVal, dif_pos hi]

/-- The face matrix `onResults` publishes on the C5 witness keypoints. -/
def c5fm : FaceMatrix :=
  { position := { x := 0, y := 5, z := 0 }
    rotation := { x := 0, y := 0, z := 0, w := 1 }
    faceWidth := 0
    pupilLeft := { x := -30, y := 5, z := 0 }
    pupilRight := { x := 30, y := 5, z := 0 } }

theorem c5lms_rotation :
    calculateFaceQuaternion c5lms 100 100 = some { x := 0, y := 0, z := 0, w := 1 } := by
  have h33 : c5lms[(33 : Nat)]? = some { x := 0.49, y := 0.5, z := 0 } := by
    rw [c5lms_getElem 33 (by norm_num)]; norm_num [c5fn]
  have h263 : c5lms[(263 : Nat)]? = some { x := 0.51, y := 0.5, z := 0 } := by
    rw [c5lms_getElem 263 (by norm_num)]; norm_num [c5fn]
  have h168 : c5lms[(168 : Nat)]? = some { x := 0.5, y := 0.495, z := 0 } := by
    rw [c5lms_getElem 168 (by norm_num)]; norm_num [c5fn]
  have h4 : c5lms[(4 : Nat)]? = some { x := 0.5, y := 0.505, z := 0 } := by
    rw [c5lms_getElem 4 (by norm_num)]; norm_num [c5fn]
  rw [calculateFaceQuaternion]
  simp only [anchorLeftEye, anchorRightEye, anchorNoseBridge, anchorNoseTip]
  rw [h33, h263, h168, h4]
  refine congrArg some ?_
  norm_num [calculateFaceQuaternionCore, faceAxes, landmarkToVector3,
    Vec3.sub, Vec3.normalize, Vec3.length, Vec3.lengthSq, Vec3.divideScalar,
    Vec3.multiplyScalar, Vec3.cross, makeBasis, quatFromRotationMatrix,
    Real.sqrt_one, sqrt_four]

theorem c5lms_pose : onResultsPose c5lms 100 100 = some c5fm := by
  have h234 : c5lms[(234 : Nat)]? = some { x := 0.5, y := 0.5, z := 0 } := by
    rw [c5lms_getElem 234 (by norm_num)]; norm_num [c5fn]
  have h454 : c5lms[(454 : Nat)]? = some { x := 0.5, y := 0.5, z := 0 } := by
    rw [c5lms_getElem 454 (by norm_num)]; norm_num [c5fn]
  have h468 : c5lms[(468 : Nat)]? = some { x := 0.2, y := 0.45, z := 0 } := by
    rw [c5lms_getElem 468 (by norm_num)]; norm_num [c5fn]
  have h473 : c5lms[(473 : Nat)]? = some { x := 0.8, y := 0.45, z := 0 } := by
    rw [c5lms_getElem 473 (by norm_num)]; norm_num [c5fn]
  rw [onResultsPose]
  simp only [anchorLeftEar, anchorRightEar, anchorLeftPupil, anchorRightPupil]
  rw [c5lms_rotation, h234, h454, h468, h473]
  refine congrArg some ?_
  norm_num [landmarkToVector3, Vec3.distanceTo, Real.sqrt_zero, c5fm]

theorem c5_anchor_is_pupil_midpoint_witness :
    onResultsPose c5lms 100 100 = some c5fm ∧
    c5lms[(468 : Nat)]? = some { x := 0.2, y := 0.45, z := 0 } ∧
    c5lms[(473 : Nat)]? = some { x := 0.8, y := 0.45, z := 0 } ∧
    c5fm.position =
      { x := ((landmarkToVector3 { x := 0.2, y := 0.45, z := 0 } 100 100).x +
              (landmarkToVector3 { x := 0.8, y := 0.45, z := 0 } 100 100).x) / 2
        y := ((landmarkToVector3 { x := 0.2, y := 0.45, z := 0 } 100 100).y +
              (landmarkToVector3 { x := 0.8, y := 0.45, z := 0 } 100 100).y) / 2
        z := ((landmarkToVector3 { x := 0.2, y := 0.45, z := 0 } 100 100).z +
              (landmarkToVector3 { x := 0.8, y := 0.45, z := 0 } 100 100).z) / 2 } ∧
    c5fm.position = { x := 0, y := 5, z := 0 } := by
  have h468 : c5lms[(468 : Nat)]? = some { x := 0.2, y := 0.45, z := 0 } := by
    rw [c5lms_getElem 468 (by norm_num)]; norm_num [c5fn]
  have h473 : c5lms[(473 : Nat)]? = some { x := 0.8, y := 0.45, z := 0 } := by
    rw [c5lms_getElem 473 (by norm_num)]; norm_num [c5fn]
  exact ⟨c5lms_pose, h468, h473,
    c5_anchor_is_pupil_midpoint c5lms 100 100 c5fm c5lms_pose _ _ h468 h473, rfl⟩

/-- C10: every per-frame pose computation indexes the landmark sequence at
the fixed `ANCHOR_POINTS` constants up to 473 with no bounds check, so the
pipeline produces a pose exactly when the detector delivers the 474-landmark
refined topology: with at least 474 landmarks the computation succeeds, while
for EVERY shorter sequence (in particular the 468-point base topology) the
pupil accesses at indices 468/473 yield no value and the pose computation
fails. -/
theorem c10_requires_refined_topology (landmarks : List Landmark) (w h : ℝ)
    (hlen : 474 ≤ landmarks.length) :
    (onResultsPose landmarks w h).isSome = true ∧
    (∀ (short : List Landmark) (w2 h2 : ℝ), short.length < 474 →
      onResultsPose short w2 h2 = none) := by
  constructor
  · have g : ∀ i : Nat, i < 474 → ∃ lm : Landmark, landmarks[i]? = some lm := by
      intro i hi
      exact ⟨_, List.getElem?_eq_getElem (by omega)⟩
    obtain ⟨lm33, h33⟩ := g 33 (by norm_num)
    obtain ⟨lm263, h263⟩ := g 263 (by norm_num)
    obtain ⟨lm168, h168⟩ := g 168 (by norm_num)
    obtain ⟨lm4, h4⟩ := g 4 (by norm_num)
    obtain ⟨lm234, h234⟩ := g 234 (by norm_num)
    obtain ⟨lm454, h454⟩ := g 454 (by norm_num)
    obtain ⟨lm468, h468⟩ := g 468 (by norm_num)
    obtain ⟨lm473, h473⟩ := g 473 (by norm_num)
    have hq : calculateFaceQuaternion landmarks w h =
        some (calculateFaceQuaternionCore
          (landmarkToVector3 lm33 w h) (landmarkToVector3 lm263 w h)
          (landmarkToVector3 lm168 w h) (landmarkToVector3 lm4 w h)) := by
      rw [calculateFaceQuaternion]
      simp only [anchorLeftEye, anchorRightEye, anchorNoseBridge, anchorNoseTip]
      rw [h33, h263, h168, h4]
      rfl
    rw [onResultsPose]
    simp only [anchorLeftEar, anchorRightEar, anchorLeftPupil, anchorRightPupil]
    rw [hq, h234, h454, h468, h473]
    rfl
  · intro short w2 h2 hshort
    have h473 : short[(473 : Nat)]? = none := List.getElem?_eq_none (by omega)
    rw [onResultsPose]
    simp only [anchorLeftEar, anchorRightEar, anchorLeftPupil, anchorRightPupil]
    cases hq : calculateFaceQuaternion short w2 h2 with
    | none => rfl
    | some rot =>
      cases h234 : short[(234 : Nat)]? with
      | none => rfl
      | some lm1 =>
        cases h454 : short[(454 : Nat)]? with
        | none => rfl
        | some lm2 =>
          cases h468 : short[(468 : Nat)]? with
          | none => rfl
          | some lm3 =>
            rw [h473]
            rfl

/-! Unit norm of the quaternion extracted from an orthonormal basis.  The
basis handed to `setFromRotationMatrix` by `calculateFaceQuaternion` always
has the shape (x, z x x, z) with x, z unit and orthogonal; the four branch
identities below are polynomial consequences of those constraints. -/

theorem y_col_unit (x1 x2 x3 z1 z2 z3 : ℝ)
    (hx : x1 * x1 + x2 * x2 + x3 * x3 = 1)
    (hz : z1 * z1 + z2 * z2 + z3 * z3 = 1)
    (hd : x1 * z1 + x2 * z2 + x3 * z3 = 0) :
    (z2 * x3 - z3 * x2) * (z2 * x3 - z3 * x2) +
    (z3 * x1 - z1 * x3) * (z3 * x1 - z1 * x3) +
    (z1 * x2 - z2 * x1) * (z1 * x2 - z2 * x1) = 1 := by
  linear_combination (z1 * z1 + z2 * z2 + z3 * z3) * hx + hz -
    (x1 * z1 + x2 * z2 + x3 * z3) * hd

theorem basis_cert_branch1 (x1 x2 x3 z1 z2 z3 : ℝ)
    (hx : x1 * x1 + x2 * x2 + x3 * x3 = 1)
    (hz : z1 * z1 + z2 * z2 + z3 * z3 = 1)
    (hd : x1 * z1 + x2 * z2 + x3 * z3 = 0) :
    ((z1 * x2 - z2 * x1) - z2) * ((z1 * x2 - z2 * x1) - z2) +
    (z1 - x3) * (z1 - x3) +
    (x2 - (z2 * x3 - z3 * x2)) * (x2 - (z2 * x3 - z3 * x2)) =
      ((x1 + (z3 * x1 - z1 * x3) + z3) + 1) *
        (4 - ((x1 + (z3 * x1 - z1 * x3) + z3) + 1)) := by
  linear_combination (1 + 2 * z3 + z1 ^ 2 + z2 ^ 2 + z3 ^ 2) * hx +
    (2 + 2 * x1) * hz +
    (-2 * x3 - 2 * z1 - (x1 * z1 + x2 * z2 + x3 * z3)) * hd

theorem basis_cert_branch2 (x1 x2 x3 z1 z2 z3 : ℝ)
    (hx : x1 * x1 + x2 * x2 + x3 * x3 = 1)
    (hz : z1 * z1 + z2 * z2 + z3 * z3 = 1)
    (hd : x1 * z1 + x2 * z2 + x3 * z3 = 0) :
    ((z2 * x3 - z3 * x2) + x2) * ((z2 * x3 - z3 * x2) + x2) +
    (z1 + x3) * (z1 + x3) +
    ((z1 * x2 - z2 * x1) - z2) * ((z1 * x2 - z2 * x1) - z2) =
      (1 + x1 - (z3 * x1 - z1 * x3) - z3) * (4 - (1 + x1 - (z3 * x1 - z1 * x3) - z3)) := by
  linear_combination (1 - 2 * z3 + z1 ^ 2 + z2 ^ 2 + z3 ^ 2) * hx +
    (2 + 2 * x1) * hz +
    (2 * x3 - 2 * z1 - (x1 * z1 + x2 * z2 + x3 * z3)) * hd

theorem basis_cert_branch3 (x1 x2 x3 z1 z2 z3 : ℝ)
    (hx : x1 * x1 + x2 * x2 + x3 * x3 = 1)
    (hz : z1 * z1 + z2 * z2 + z3 * z3 = 1)
    (hd : x1 * z1 + x2 * z2 + x3 * z3 = 0) :
    ((z2 * x3 - z3 * x2) + x2) * ((z2 * x3 - z3 * x2) + x2) +
    (z2 + (z1 * x2 - z2 * x1)) * (z2 + (z1 * x2 - z2 * x1)) +
    (z1 - x3) * (z1 - x3) =
      (1 + (z3 * x1 - z1 * x3) - x1 - z3) * (4 - (1 + (z3 * x1 - z1 * x3) - x1 - z3)) := by
  linear_combination (1 - 2 * z3 + z1 ^ 2 + z2 ^ 2 + z3 ^ 2) * hx +
    (2 - 2 * x1) * hz +
    (2 * x3 + 2 * z1 - (x1 * z1 + x2 * z2 + x3 * z3)) * hd

theorem basis_cert_branch4 (x1 x2 x3 z1 z2 z3 : ℝ)
    (hx : x1 * x1 + x2 * x2 + x3 * x3 = 1)
    (hz : z1 * z1 + z2 * z2 + z3 * z3 = 1)
    (hd : x1 * z1 + x2 * z2 + x3 * z3 = 0) :
    (z1 + x3) * (z1 + x3) +
    (z2 + (z1 * x2 - z2 * x1)) * (z2 + (z1 * x2 - z2 * x1)) +
    (x2 - (z2 * x3 - z3 * x2)) * (x2 - (z2 * x3 - z3 * x2)) =
      (1 + z3 - x1 - (z3 * x1 - z1 * x3)) * (4 - (1 + z3 - x1 - (z3 * x1 - z1 * x3))) := by
  linear_combination (1 + 2 * z3 + z1 ^ 2 + z2 ^ 2 + z3 ^ 2) * hx +
    (2 - 2 * x1) * hz +
    (-2 * x3 + 2 * z1 - (x1 * z1 + x2 * z2 + x3 * z3)) * hd

theorem abs_le_one_of_mul_self_le_one (v : ℝ) (h : v * v ≤ 1) : -1 ≤ v ∧ v ≤ 1 := by
  constructor <;> nlinarith [mul_self_nonneg (v - 1), mul_self_nonneg (v + 1)]

/-- Norm computation for the trace-positive branch of
`setFromRotationMatrix`: components (a s, b s, c s, 0.25 / s) with
s = 0.5 / sqrt u. -/
theorem branch_norm_trace (a b c u st : ℝ) (hst : 0 < st) (hst2 : st * st = u)
    (hcert : a * a + b * b + c * c = u * (4 - u)) :
    a * (0.5 / st) * (a * (0.5 / st)) + b * (0.5 / st) * (b * (0.5 / st)) +
      c * (0.5 / st) * (c * (0.5 / st)) + 0.25 / (0.5 / st) * (0.25 / (0.5 / st)) = 1 := by
  have hstne : st ≠ 0 := ne_of_gt hst
  have hu : 0 < u := by rw [← hst2]; exact mul_pos hst hst
  have hune : u ≠ 0 := ne_of_gt hu
  have step1 : a * (0.5 / st) * (a * (0.5 / st)) + b * (0.5 / st) * (b * (0.5 / st)) +
      c * (0.5 / st) * (c * (0.5 / st)) + 0.25 / (0.5 / st) * (0.25 / (0.5 / st)) =
      (a * a + b * b + c * c) * (1 / (4 * (st * st))) + st * st / 4 := by
    field_simp
    ring
  rw [step1, hst2, hcert]
  field_simp
  ring

/-- Norm computation for the diagonal branches of `setFromRotationMatrix`:
components (0.25 s, p / s, q / s, r / s) with s = 2 sqrt u, stated in the
summand order of the second branch; the other orders follow by
rearrangement. -/
theorem branch_norm_diag (p q r u st : ℝ) (hst : 0 < st) (hst2 : st * st = u)
    (hcert : p * p + q * q + r * r = u * (4 - u)) :
    0.25 * (2 * st) * (0.25 * (2 * st)) + p / (2 * st) * (p / (2 * st)) +
      q / (2 * st) * (q / (2 * st)) + r / (2 * st) * (r / (2 * st)) = 1 := by
  have hstne : st ≠ 0 := ne_of_gt hst
  have hu : 0 < u := by rw [← hst2]; exact mul_pos hst hst
  have hune : u ≠ 0 := ne_of_gt hu
  have step1 : 0.25 * (2 * st) * (0.25 * (2 * st)) + p / (2 * st) * (p / (2 * st)) +
      q / (2 * st) * (q / (2 * st)) + r / (2 * st) * (r / (2 * st)) =
      st * st / 4 + (p * p + q * q + r * r) * (1 / (4 * (st * st))) := by
    field_simp
    ring
  rw [step1, hst2, hcert]
  field_simp
  ring

/-- The quaternion `setFromRotationMatrix` extracts from a basis of the shape
(x, z x x, z) with x, z unit and orthogonal — the shape
`calculateFaceQuaternion` always passes — has unit norm, in each of the four
branches. -/
theorem quatFromRotationMatrix_normSq_eq_one (xA zA : Vec3)
    (hx : xA.lengthSq = 1) (hz : zA.lengthSq = 1) (hxz : xA.dot zA = 0) :
    (quatFromRotationMatrix (makeBasis xA (zA.cross xA) zA)).normSq = 1 := by
  obtain ⟨x1, x2, x3⟩ := xA
  obtain ⟨z1, z2, z3⟩ := zA
  simp only [Vec3.lengthSq] at hx hz
  simp only [Vec3.dot] at hxz
  have hy := y_col_unit x1 x2 x3 z1 z2 z3 hx hz hxz
  have hx1 := abs_le_one_of_mul_self_le_one x1 (by nlinarith [mul_self_nonneg x2, mul_self_nonneg x3])
  have hy2 := abs_le_one_of_mul_self_le_one (z3 * x1 - z1 * x3) (by
    nlinarith [mul_self_nonneg (z2 * x3 - z3 * x2), mul_self_nonneg (z1 * x2 - z2 * x1)])
  have hz3 := abs_le_one_of_mul_self_le_one z3 (by nlinarith [mul_self_nonneg z1, mul_self_nonneg z2])
  simp only [makeBasis, Vec3.cross, quatFromRotationMatrix, Quat.normSq]
  split_ifs with h1 h2 h3
  · -- trace positive
    have hu : (0 : ℝ) < (x1 + (z3 * x1 - z1 * x3) + z3) + 1.0 := by
      norm_num at h1 ⊢
      linarith
    have hst : 0 < Real.sqrt ((x1 + (z3 * x1 - z1 * x3) + z3) + 1.0) :=
      Real.sqrt_pos.mpr hu
    have hst2 := Real.mul_self_sqrt hu.le
    have hcert := basis_cert_branch1 x1 x2 x3 z1 z2 z3 hx hz hxz
    have key := branch_norm_trace ((z1 * x2 - z2 * x1) - z2) (z1 - x3)
      (x2 - (z2 * x3 - z3 * x2)) ((x1 + (z3 * x1 - z1 * x3) + z3) + 1.0)
      (Real.sqrt ((x1 + (z3 * x1 - z1 * x3) + z3) + 1.0)) hst hst2 (by
        rw [hcert]; norm_num)
    linear_combination key
  · -- m11 largest
    have hu : (0 : ℝ) < 1.0 + x1 - (z3 * x1 - z1 * x3) - z3 := by
      obtain ⟨h2a, h2b⟩ := h2
      norm_num
      linarith [hy2.2]
    have hst : 0 < Real.sqrt (1.0 + x1 - (z3 * x1 - z1 * x3) - z3) :=
      Real.sqrt_pos.mpr hu
    have hst2 := Real.mul_self_sqrt hu.le
    have hcert := basis_cert_branch2 x1 x2 x3 z1 z2 z3 hx hz hxz
    have key := branch_norm_diag ((z1 * x2 - z2 * x1) - z2)
      ((z2 * x3 - z3 * x2) + x2) (z1 + x3) (1.0 + x1 - (z3 * x1 - z1 * x3) - z3)
      (Real.sqrt (1.0 + x1 - (z3 * x1 - z1 * x3) - z3)) hst hst2 (by
        rw [show ((z1 * x2 - z2 * x1) - z2) * ((z1 * x2 - z2 * x1) - z2) +
            ((z2 * x3 - z3 * x2) + x2) * ((z2 * x3 - z3 * x2) + x2) +
            (z1 + x3) * (z1 + x3) =
            ((z2 * x3 - z3 * x2) + x2) * ((z2 * x3 - z3 * x2) + x2) +
            (z1 + x3) * (z1 + x3) +
            ((z1 * x2 - z2 * x1) - z2) * ((z1 * x2 - z2 * x1) - z2) from by ring,
          basis_cert_branch2 x1 x2 x3 z1 z2 z3 hx hz hxz]
        norm_num)
    linear_combination key
  · -- m22 largest
    have hu : (0 : ℝ) < 1.0 + (z3 * x1 - z1 * x3) - x1 - z3 := by
      norm_num
      linarith [hx1.2, h3]
    have hst : 0 < Real.sqrt (1.0 + (z3 * x1 - z1 * x3) - x1 - z3) :=
      Real.sqrt_pos.mpr hu
    have hst2 := Real.mul_self_sqrt hu.le
    have key := branch_norm_diag ((z1 - x3))
      ((z2 * x3 - z3 * x2) + x2) (z2 + (z1 * x2 - z2 * x1))
      (1.0 + (z3 * x1 - z1 * x3) - x1 - z3)
      (Real.sqrt (1.0 + (z3 * x1 - z1 * x3) - x1 - z3)) hst hst2 (by
        rw [show (z1 - x3) * (z1 - x3) +
            ((z2 * x3 - z3 * x2) + x2) * ((z2 * x3 - z3 * x2) + x2) +
            (z2 + (z1 * x2 - z2 * x1)) * (z2 + (z1 * x2 - z2 * x1)) =
            ((z2 * x3 - z3 * x2) + x2) * ((z2 * x3 - z3 * x2) + x2) +
            (z2 + (z1 * x2 - z2 * x1)) * (z2 + (z1 * x2 - z2 * x1)) +
            (z1 - x3) * (z1 - x3) from by ring,
          basis_cert_branch3 x1 x2 x3 z1 z2 z3 hx hz hxz]
        norm_num)
    linear_combination key
  · -- m33 largest
    have hu : (0 : ℝ) < 1.0 + z3 - x1 - (z3 * x1 - z1 * x3) := by
      by_contra hcon
      push_neg at hcon
      rw [not_and_or, not_lt, not_lt] at h2
      rw [not_lt] at h3
      norm_num at h1 hcon
      rcases h2 with h2 | h2
      · linarith [hy2.2, hz3.2]
      · linarith [hy2.1, hz3.2]
    have hst : 0 < Real.sqrt (1.0 + z3 - x1 - (z3 * x1 - z1 * x3)) :=
      Real.sqrt_pos.mpr hu
    have hst2 := Real.mul_self_sqrt hu.le
    have key := branch_norm_diag (x2 - (z2 * x3 - z3 * x2))
      (z1 + x3) (z2 + (z1 * x2 - z2 * x1))
      (1.0 + z3 - x1 - (z3 * x1 - z1 * x3))
      (Real.sqrt (1.0 + z3 - x1 - (z3 * x1 - z1 * x3))) hst hst2 (by
        rw [show (x2 - (z2 * x3 - z3 * x2)) * (x2 - (z2 * x3 - z3 * x2)) +
            (z1 + x3) * (z1 + x3) +
            (z2 + (z1 * x2 - z2 * x1)) * (z2 + (z1 * x2 - z2 * x1)) =
            (z1 + x3) * (z1 + x3) +
            (z2 + (z1 * x2 - z2 * x1)) * (z2 + (z1 * x2 - z2 * x1)) +
            (x2 - (z2 * x3 - z3 * x2)) * (x2 - (z2 * x3 - z3 * x2)) from by ring,
          basis_cert_branch4 x1 x2 x3 z1 z2 z3 hx hz hxz]
        norm_num)
    linear_combination key

/-! Facts about `atan2` on the region the slerp uses (first quadrant,
arguments on the unit circle), and the trig identity behind spherical
interpolation. -/

theorem atan2_facts (s c : ℝ) (hs : 0 < s) (hc : 0 ≤ c) (hsc : s * s + c * c = 1) :
    Real.cos (atan2 s c) = c ∧ Real.sin (atan2 s c) = s ∧
    0 < atan2 s c ∧ atan2 s c ≤ Real.pi / 2 := by
  rcases eq_or_lt_of_le hc with hc0 | hcpos
  · have hs1 : s = 1 := by nlinarith
    rw [atan2, if_neg (by rw [← hc0]; exact lt_irrefl 0),
      if_neg (by rw [← hc0]; exact lt_irrefl 0), if_pos hs]
    refine ⟨by rw [Real.cos_pi_div_two, hc0], by rw [Real.sin_pi_div_two, hs1], ?_, le_refl _⟩
    positivity
  · rw [atan2, if_pos hcpos]
    have hcne : c ≠ 0 := ne_of_gt hcpos
    have hsqrt : Real.sqrt (1 + (s / c) ^ 2) = 1 / c := by
      have h2 : 1 + (s / c) ^ 2 = 1 / (c * c) := by
        field_simp
        linear_combination c ^ 2 * hsc
      rw [h2, one_div, Real.sqrt_inv, Real.sqrt_mul_self hcpos.le, one_div]
    refine ⟨?_, ?_, ?_, (Real.arctan_lt_pi_div_two _).le⟩
    · rw [Real.cos_arctan, hsqrt]
      field_simp
    · rw [Real.sin_arctan, hsqrt]
      field_simp
    · have := Real.arctan_strictMono (show (0 : ℝ) < s / c by positivity)
      rwa [Real.arctan_zero] at this

theorem sin_sq_interp_identity (a b : ℝ) :
    Real.sin a ^ 2 + Real.sin b ^ 2 +
      2 * Real.sin a * Real.sin b * Real.cos (a + b) = Real.sin (a + b) ^ 2 := by
  have pa := Real.sin_sq_add_cos_sq a
  have pb := Real.sin_sq_add_cos_sq b
  rw [Real.sin_add, Real.cos_add]
  linear_combination (-(Real.sin a) ^ 2) * pb + (-(Real.sin b) ^ 2) * pa

theorem Quat.normSq_mul (a b : Quat) : (a.mul b).normSq = a.normSq * b.normSq := by
  simp only [Quat.mul, Quat.normSq]
  ring

theorem normSq_quatFromAxisAngle (axis : Vec3) (angle : ℝ)
    (haxis : axis.lengthSq = 1) : (quatFromAxisAngle axis angle).normSq = 1 := by
  simp only [quatFromAxisAngle, Quat.normSq, Vec3.lengthSq] at haxis ⊢
  linear_combination (Real.sin (angle / 2)) ^ 2 * haxis +
    Real.sin_sq_add_cos_sq (angle / 2)

theorem normSq_quatFromEuler (e : Euler) : (quatFromEuler e).normSq = 1 := by
  have h1 := Real.sin_sq_add_cos_sq (e.x / 2)
  have h2 := Real.sin_sq_add_cos_sq (e.y / 2)
  have h3 := Real.sin_sq_add_cos_sq (e.z / 2)
  simp only [quatFromEuler, Quat.normSq]
  linear_combination
    ((Real.sin (e.y / 2)) ^ 2 + (Real.cos (e.y / 2)) ^ 2) *
      ((Real.sin (e.z / 2)) ^ 2 + (Real.cos (e.z / 2)) ^ 2) * h1 +
    ((Real.sin (e.z / 2)) ^ 2 + (Real.cos (e.z / 2)) ^ 2) * h2 + h3

theorem normSq_correctionY : correctionY.normSq = 1 := by
  refine normSq_quatFromAxisAngle _ _ ?_
  simp [Vec3.lengthSq]

theorem normSq_correctionX : correctionX.normSq = 1 := by
  refine normSq_quatFromAxisAngle _ _ ?_
  simp [Vec3.lengthSq]

theorem normSq_targetQuaternion (rotation : Quat) (rotationOffset : Option Euler)
    (hrot : rotation.normSq = 1) :
    (targetQuaternion rotation rotationOffset).normSq = 1 := by
  cases rotationOffset with
  | none =>
    simp only [targetQuaternion, Quat.normSq_mul, hrot, normSq_correctionY,
      normSq_correctionX]
    norm_num
  | some offset =>
    simp only [targetQuaternion, Quat.normSq_mul, hrot, normSq_correctionY,
      normSq_correctionX, normSq_quatFromEuler]
    norm_num

theorem Quat.length_eq_zero_iff_normSq (v : Quat) : v.length = 0 ↔ v.normSq = 0 := by
  constructor
  · intro h
    have h2 := Real.sqrt_eq_zero'.mp h
    have h3 := v.normSq_nonneg
    linarith
  · intro h
    simp [Quat.length, h]

theorem Quat.mul_self_length_eq_normSq (v : Quat) : v.length * v.length = v.normSq :=
  Real.mul_self_sqrt v.normSq_nonneg

theorem Quat.normSq_normalize (v : Quat) (hv : v.normSq ≠ 0) :
    v.normalize.normSq = 1 := by
  have hlen : v.length ≠ 0 := fun h => hv ((Quat.length_eq_zero_iff_normSq v).mp h)
  have hsq := Quat.mul_self_length_eq_normSq v
  simp only [Quat.normalize, if_neg hlen, Quat.normSq]
  field_simp
  rw [hsq]
  rfl

theorem Quat.dot_normalize_left (v r : Quat) (hv : v.normSq ≠ 0) :
    v.normalize.dot r = v.dot r / v.length := by
  have hlen : v.length ≠ 0 := fun h => hv ((Quat.length_eq_zero_iff_normSq v).mp h)
  simp only [Quat.normalize, if_neg hlen, Quat.dot]
  field_simp

/-- Spherical interpolation of unit quaternions, at angle θ in the first
quadrant with positive sine: the interpolant is a unit quaternion whose
alignment with the target is cos((1 - t) θ). -/
theorem slerp_formula (q r1 : Quat) (θ t den : ℝ)
    (hq : q.normSq = 1) (hr1 : r1.normSq = 1)
    (hcos : Real.cos θ = q.w * r1.w + q.x * r1.x + q.y * r1.y + q.z * r1.z)
    (hden : den = Real.sin θ) (hdpos : 0 < den) :
    (Quat.mk
      (q.x * (Real.sin ((1 - t) * θ) / den) + r1.x * (Real.sin (t * θ) / den))
      (q.y * (Real.sin ((1 - t) * θ) / den) + r1.y * (Real.sin (t * θ) / den))
      (q.z * (Real.sin ((1 - t) * θ) / den) + r1.z * (Real.sin (t * θ) / den))
      (q.w * (Real.sin ((1 - t) * θ) / den) + r1.w * (Real.sin (t * θ) / den))).normSq = 1 ∧
    (Quat.mk
      (q.x * (Real.sin ((1 - t) * θ) / den) + r1.x * (Real.sin (t * θ) / den))
      (q.y * (Real.sin ((1 - t) * θ) / den) + r1.y * (Real.sin (t * θ) / den))
      (q.z * (Real.sin ((1 - t) * θ) / den) + r1.z * (Real.sin (t * θ) / den))
      (q.w * (Real.sin ((1 - t) * θ) / den) + r1.w * (Real.sin (t * θ) / den))).dot r1 =
      Real.cos ((1 - t) * θ) := by
  subst hden
  have hsinne : Real.sin θ ≠ 0 := ne_of_gt hdpos
  have hsum : (1 - t) * θ + t * θ = θ := by ring
  have hid := sin_sq_interp_identity ((1 - t) * θ) (t * θ)
  rw [hsum] at hid
  have hsub : Real.sin (t * θ) =
      Real.sin θ * Real.cos ((1 - t) * θ) - Real.cos θ * Real.sin ((1 - t) * θ) := by
    have ht : t * θ = θ - (1 - t) * θ := by ring
    rw [ht, Real.sin_sub]
  constructor
  · have key : (Quat.mk
        (q.x * (Real.sin ((1 - t) * θ) / Real.sin θ) + r1.x * (Real.sin (t * θ) / Real.sin θ))
        (q.y * (Real.sin ((1 - t) * θ) / Real.sin θ) + r1.y * (Real.sin (t * θ) / Real.sin θ))
        (q.z * (Real.sin ((1 - t) * θ) / Real.sin θ) + r1.z * (Real.sin (t * θ) / Real.sin θ))
        (q.w * (Real.sin ((1 - t) * θ) / Real.sin θ) + r1.w * (Real.sin (t * θ) / Real.sin θ))).normSq =
        (Real.sin ((1 - t) * θ) / Real.sin θ) ^ 2 * q.normSq +
        (Real.sin (t * θ) / Real.sin θ) ^ 2 * r1.normSq +
        2 * (Real.sin ((1 - t) * θ) / Real.sin θ) * (Real.sin (t * θ) / Real.sin θ) *
          (q.w * r1.w + q.x * r1.x + q.y * r1.y + q.z * r1.z) := by
      simp only [Quat.normSq]
      ring
    rw [key, hq, hr1, ← hcos]
    field_simp
    linear_combination (Real.sin θ) ^ 2 * hid
  · have key : (Quat.mk
        (q.x * (Real.sin ((1 - t) * θ) / Real.sin θ) + r1.x * (Real.sin (t * θ) / Real.sin θ))
        (q.y * (Real.sin ((1 - t) * θ) / Real.sin θ) + r1.y * (Real.sin (t * θ) / Real.sin θ))
        (q.z * (Real.sin ((1 - t) * θ) / Real.sin θ) + r1.z * (Real.sin (t * θ) / Real.sin θ))
        (q.w * (Real.sin ((1 - t) * θ) / Real.sin θ) + r1.w * (Real.sin (t * θ) / Real.sin θ))).dot r1 =
        (Real.sin ((1 - t) * θ) / Real.sin θ) *
          (q.w * r1.w + q.x * r1.x + q.y * r1.y + q.z * r1.z) +
        (Real.sin (t * θ) / Real.sin θ) * r1.normSq := by
      simp only [Quat.dot, Quat.normSq]
      ring
    rw [key, hr1, ← hcos, hsub]
    field_simp
    ring

theorem le_of_mul_self_le_mul_self (a b : ℝ) (ha : 0 ≤ a) (hb : 0 ≤ b)
    (h : a * a ≤ b * b) : a ≤ b := by
  nlinarith [sq_nonneg (a - b), sq_nonneg (a + b)]

/-- Facts about the small-angle linear-interpolation branch of the slerp:
for unit quaternions at nonnegative alignment c < 1, the renormalized lerp
is unit, its alignment with the target does not decrease, stays in [0, 1],
and its misalignment 1 - alignment^2 contracts by at least 1/4. -/
theorem slerp_lerp_facts (q r1 : Quat) (c : ℝ)
    (hq : q.normSq = 1) (hr1 : r1.normSq = 1)
    (hc : c = q.w * r1.w + q.x * r1.x + q.y * r1.y + q.z * r1.z)
    (hcnn : 0 ≤ c) (hclt : c < 1) (out : Quat)
    (hout : out = Quat.normalize (Quat.mk
      ((1 - DAMPING) * q.x + DAMPING * r1.x) ((1 - DAMPING) * q.y + DAMPING * r1.y)
      ((1 - DAMPING) * q.z + DAMPING * r1.z) ((1 - DAMPING) * q.w + DAMPING * r1.w))) :
    out.normSq = 1 ∧ c ≤ out.dot r1 ∧ out.dot r1 ≤ 1 ∧ 0 ≤ out.dot r1 ∧
      1 - out.dot r1 ^ 2 ≤ 1 / 4 * (1 - c ^ 2) := by
  have h1c : 0 < 1 - c * c := by nlinarith
  rw [show DAMPING = (0.9 : ℝ) from rfl] at hout
  set v : Quat := Quat.mk
    ((1 - (0.9 : ℝ)) * q.x + 0.9 * r1.x) ((1 - (0.9 : ℝ)) * q.y + 0.9 * r1.y)
    ((1 - (0.9 : ℝ)) * q.z + 0.9 * r1.z) ((1 - (0.9 : ℝ)) * q.w + 0.9 * r1.w) with hvdef
  have hM : v.normSq = 0.82 + 0.18 * c := by
    rw [hvdef]
    simp only [Quat.normSq] at hq hr1 ⊢
    linear_combination 0.01 * hq + 0.81 * hr1 + 0.18 * hc.symm
  have hMpos : 0 < v.normSq := by rw [hM]; linarith
  have hMne : v.normSq ≠ 0 := ne_of_gt hMpos
  have hL : 0 < v.length := Real.sqrt_pos.mpr hMpos
  have hLL : v.length * v.length = v.normSq := Quat.mul_self_length_eq_normSq v
  have hvd : v.dot r1 = 0.1 * c + 0.9 := by
    rw [hvdef]
    simp only [Quat.dot, Quat.normSq] at hr1 hc ⊢
    linear_combination 0.9 * hr1 + 0.1 * hc.symm
  have hnum : (0 : ℝ) < 0.1 * c + 0.9 := by linarith
  have hdot : out.dot r1 = (0.1 * c + 0.9) / v.length := by
    rw [hout, Quat.dot_normalize_left v r1 hMne, hvd]
  refine ⟨by rw [hout]; exact Quat.normSq_normalize v hMne, ?_, ?_, ?_, ?_⟩
  · rw [hdot, le_div_iff hL]
    refine le_of_mul_self_le_mul_self _ _ (mul_nonneg hcnn hL.le) hnum.le ?_
    have key : c * v.length * (c * v.length) = c * c * (0.82 + 0.18 * c) := by
      rw [← hM]
      calc c * v.length * (c * v.length) = c * c * (v.length * v.length) := by ring
        _ = c * c * v.normSq := by rw [hLL]
    rw [key]
    nlinarith [mul_nonneg h1c.le (show (0 : ℝ) ≤ 0.18 * c + 0.81 by linarith)]
  · rw [hdot, div_le_one hL]
    refine le_of_mul_self_le_mul_self _ _ hnum.le hL.le ?_
    rw [hLL, hM]
    nlinarith
  · rw [hdot]
    exact div_nonneg hnum.le hL.le
  · rw [hdot, div_pow, show v.length ^ 2 = v.normSq from by rw [pow_two]; exact hLL, hM]
    have hMp : (0 : ℝ) < 0.82 + 0.18 * c := by linarith
    rw [sub_le_iff_le_add, ← sub_le_iff_le_add', le_div_iff hMp]
    nlinarith [mul_nonneg h1c.le (show (0 : ℝ) ≤ 0.195 + 0.045 * c by linarith)]

/-- Facts about the general spherical-interpolation branch of the slerp. -/
theorem slerp_main_facts (q r1 : Quat) (c : ℝ)
    (hq : q.normSq = 1) (hr1 : r1.normSq = 1)
    (hc : c = q.w * r1.w + q.x * r1.x + q.y * r1.y + q.z * r1.z)
    (hcnn : 0 ≤ c) (hclt : c < 1) (out : Quat)
    (hout : out = Quat.mk
      (q.x * (Real.sin ((1 - DAMPING) * atan2 (Real.sqrt (1 - c * c)) c) / Real.sqrt (1 - c * c)) +
        r1.x * (Real.sin (DAMPING * atan2 (Real.sqrt (1 - c * c)) c) / Real.sqrt (1 - c * c)))
      (q.y * (Real.sin ((1 - DAMPING) * atan2 (Real.sqrt (1 - c * c)) c) / Real.sqrt (1 - c * c)) +
        r1.y * (Real.sin (DAMPING * atan2 (Real.sqrt (1 - c * c)) c) / Real.sqrt (1 - c * c)))
      (q.z * (Real.sin ((1 - DAMPING) * atan2 (Real.sqrt (1 - c * c)) c) / Real.sqrt (1 - c * c)) +
        r1.z * (Real.sin (DAMPING * atan2 (Real.sqrt (1 - c * c)) c) / Real.sqrt (1 - c * c)))
      (q.w * (Real.sin ((1 - DAMPING) * atan2 (Real.sqrt (1 - c * c)) c) / Real.sqrt (1 - c * c)) +
        r1.w * (Real.sin (DAMPING * atan2 (Real.sqrt (1 - c * c)) c) / Real.sqrt (1 - c * c)))) :
    out.normSq = 1 ∧ c ≤ out.dot r1 ∧ out.dot r1 ≤ 1 ∧ 0 ≤ out.dot r1 ∧
      1 - out.dot r1 ^ 2 ≤ 1 / 4 * (1 - c ^ 2) := by
  have h1c : 0 < 1 - c * c := by nlinarith
  have hst : 0 < Real.sqrt (1 - c * c) := Real.sqrt_pos.mpr h1c
  have hst2 : Real.sqrt (1 - c * c) * Real.sqrt (1 - c * c) = 1 - c * c :=
    Real.mul_self_sqrt h1c.le
  have hsc : Real.sqrt (1 - c * c) * Real.sqrt (1 - c * c) + c * c = 1 := by
    rw [hst2]; ring
  obtain ⟨hcosθ, hsinθ, hθ0, hθpi2⟩ := atan2_facts (Real.sqrt (1 - c * c)) c hst hcnn hsc
  have hπ0 : (0 : ℝ) < Real.pi := Real.pi_pos
  have hθpi : atan2 (Real.sqrt (1 - c * c)) c ≤ Real.pi := by linarith
  have hD1 : (1 : ℝ) - DAMPING = 0.1 := by norm_num [DAMPING]
  have h01nn : 0 ≤ (1 - DAMPING) * atan2 (Real.sqrt (1 - c * c)) c := by
    rw [hD1]; positivity
  have h01le : (1 - DAMPING) * atan2 (Real.sqrt (1 - c * c)) c ≤
      atan2 (Real.sqrt (1 - c * c)) c := by
    rw [hD1]; nlinarith
  obtain ⟨Hnorm, Hdot⟩ := slerp_formula q r1 (atan2 (Real.sqrt (1 - c * c)) c) DAMPING
    (Real.sqrt (1 - c * c)) hq hr1 (by rw [hcosθ, hc]) hsinθ.symm hst
  subst hout
  refine ⟨Hnorm, ?_, ?_, ?_, ?_⟩
  · rw [Hdot]
    calc c = Real.cos (atan2 (Real.sqrt (1 - c * c)) c) := hcosθ.symm
      _ ≤ Real.cos ((1 - DAMPING) * atan2 (Real.sqrt (1 - c * c)) c) :=
        Real.cos_le_cos_of_nonneg_of_le_pi h01nn hθpi h01le
  · rw [Hdot]
    exact Real.cos_le_one _
  · rw [Hdot]
    refine Real.cos_nonneg_of_mem_Icc ⟨?_, ?_⟩
    · linarith
    · linarith
  · rw [Hdot, hD1]
    have hpy := Real.sin_sq_add_cos_sq (0.1 * atan2 (Real.sqrt (1 - c * c)) c)
    have hs01nn : 0 ≤ Real.sin (0.1 * atan2 (Real.sqrt (1 - c * c)) c) :=
      Real.sin_nonneg_of_nonneg_of_le_pi (by positivity) (by nlinarith)
    have hs1 : Real.sin (0.1 * atan2 (Real.sqrt (1 - c * c)) c) ≤
        0.1 * atan2 (Real.sqrt (1 - c * c)) c := Real.sin_le (by positivity)
    have hjordan := Real.mul_le_sin hθ0.le hθpi2
    have h2θ : 2 * atan2 (Real.sqrt (1 - c * c)) c ≤
        Real.pi * Real.sin (atan2 (Real.sqrt (1 - c * c)) c) := by
      have hmul := mul_le_mul_of_nonneg_left hjordan hπ0.le
      calc 2 * atan2 (Real.sqrt (1 - c * c)) c =
          Real.pi * (2 / Real.pi * atan2 (Real.sqrt (1 - c * c)) c) := by
            field_simp
        _ ≤ Real.pi * Real.sin (atan2 (Real.sqrt (1 - c * c)) c) := hmul
    have hπ4 : Real.pi ≤ 4 := Real.pi_le_four
    have hsinθnn : 0 ≤ Real.sin (atan2 (Real.sqrt (1 - c * c)) c) := by
      rw [hsinθ]; exact hst.le
    have hθ2s : atan2 (Real.sqrt (1 - c * c)) c ≤
        2 * Real.sin (atan2 (Real.sqrt (1 - c * c)) c) := by
      nlinarith [mul_le_mul_of_nonneg_right hπ4 hsinθnn]
    have hs01b : Real.sin (0.1 * atan2 (Real.sqrt (1 - c * c)) c) ≤
        0.2 * Real.sin (atan2 (Real.sqrt (1 - c * c)) c) := by
      linarith
    clear Hnorm hq hr1 hc
    nlinarith [mul_self_le_mul_self hs01nn hs01b, hpy, hst2, hsinθ,
      mul_self_nonneg (Real.sin (atan2 (Real.sqrt (1 - c * c)) c))]

/-- One slerp step of the temporal filter between unit quaternions: the
result is a unit quaternion, its alignment |dot| with the raw target does not
decrease, stays at most 1, and the misalignment 1 - dot^2 contracts by at
least a factor 1/4. -/
theorem slerp_step (q r : Quat) (hq : q.normSq = 1) (hr : r.normSq = 1) :
    (q.slerp r DAMPING).normSq = 1 ∧
    |q.dot r| ≤ |(q.slerp r DAMPING).dot r| ∧
    |(q.slerp r DAMPING).dot r| ≤ 1 ∧
    1 - ((q.slerp r DAMPING).dot r) ^ 2 ≤ 1 / 4 * (1 - (q.dot r) ^ 2) := by
  have hds : (q.dot r) ^ 2 ≤ 1 := Quat.dot_sq_le_one q r hq hr
  have habs1 : |q.dot r| ≤ 1 := by
    have h2 := abs_le_one_of_mul_self_le_one (q.dot r) (by nlinarith)
    exact abs_le.mpr h2
  have horder : q.w * r.w + q.x * r.x + q.y * r.y + q.z * r.z = q.dot r := by
    simp only [Quat.dot]; ring
  simp only [Quat.slerp]
  rw [if_neg (show ¬(DAMPING = 0) by norm_num [DAMPING]),
    if_neg (show ¬(DAMPING = 1) by norm_num [DAMPING])]
  set c0 : ℝ := q.w * r.w + q.x * r.x + q.y * r.y + q.z * r.z with hc0def
  set a : Quat := if c0 < 0 then { x := -r.x, y := -r.y, z := -r.z, w := -r.w } else r
    with hadef
  set cc : ℝ := if c0 < 0 then -c0 else c0 with hccdef
  have hcc0 : 0 ≤ cc := by
    rw [hccdef]
    split_ifs with h
    · linarith
    · exact not_lt.mp h
  have hccabs : cc = |q.dot r| := by
    rw [hccdef]
    split_ifs with h
    · rw [← horder, abs_of_neg h]
    · rw [← horder, abs_of_nonneg (not_lt.mp h)]
  have hanorm : a.normSq = 1 := by
    rw [hadef]
    split_ifs
    · show ({ x := -r.x, y := -r.y, z := -r.z, w := -r.w } : Quat).normSq = 1
      simp only [Quat.normSq] at hr ⊢
      linear_combination hr
    · exact hr
  have hca : cc = q.w * a.w + q.x * a.x + q.y * a.y + q.z * a.z := by
    rw [hccdef, hadef]
    split_ifs with h
    · show -c0 = q.w * -r.w + q.x * -r.x + q.y * -r.y + q.z * -r.z
      rw [hc0def]
      ring
    · exact hc0def
  have hdota : ∀ p : Quat, p.dot a = if c0 < 0 then -(p.dot r) else p.dot r := by
    intro p
    rw [hadef]
    split_ifs with h
    · show p.dot { x := -r.x, y := -r.y, z := -r.z, w := -r.w } = -(p.dot r)
      simp only [Quat.dot]
      ring
    · rfl
  have habsda : ∀ p : Quat, |p.dot a| = |p.dot r| := by
    intro p
    rw [hdota p]
    split_ifs
    · rw [abs_neg]
    · rfl
  have hsqda : ∀ p : Quat, (p.dot a) ^ 2 = (p.dot r) ^ 2 := by
    intro p
    rw [hdota p]
    split_ifs
    · rw [neg_sq]
    · rfl
  have hccsq : cc ^ 2 = (q.dot r) ^ 2 := by rw [hccabs, sq_abs]
  by_cases hcase : (1 : ℝ) ≤ cc
  · rw [if_pos hcase]
    have hle : cc ≤ 1 := by rw [hccabs]; exact habs1
    have hcc1 : cc = 1 := le_antisymm hle hcase
    have hdot1 : (q.dot r) ^ 2 = 1 := by rw [← hccsq, hcc1]; norm_num
    refine ⟨hq, le_refl _, habs1, ?_⟩
    rw [hdot1]
    norm_num
  · have hlt : cc < 1 := not_le.mp hcase
    rw [if_neg hcase]
    by_cases heps : 1 - cc * cc ≤ numberEpsilon
    · rw [if_pos heps]
      obtain ⟨H1, H2, H3, H4, H5⟩ :=
        slerp_lerp_facts q a cc hq hanorm hca hcc0 hlt _ rfl
      refine ⟨H1, ?_, ?_, ?_⟩
      · rw [← hccabs, ← habsda _, abs_of_nonneg H4]
        exact H2
      · rw [← habsda _, abs_of_nonneg H4]
        exact H3
      · rw [← hccsq, ← hsqda _]
        exact H5
    · rw [if_neg heps]
      obtain ⟨H1, H2, H3, H4, H5⟩ :=
        slerp_main_facts q a cc hq hanorm hca hcc0 hlt _ rfl
      refine ⟨H1, ?_, ?_, ?_⟩
      · rw [← hccabs, ← habsda _, abs_of_nonneg H4]
        exact H2
      · rw [← habsda _, abs_of_nonneg H4]
        exact H3
      · rw [← hccsq, ← hsqda _]
        exact H5

theorem Vec3.normalize_eq (v : Vec3) :
    v.normalize = v.multiplyScalar (1 / (if v.length = 0 then 1 else v.length)) := rfl

theorem Vec3.dot_multiplyScalar (a v : Vec3) (s : ℝ) :
    a.dot (v.multiplyScalar s) = s * (a.dot v) := by
  simp only [Vec3.dot, Vec3.multiplyScalar]
  ring

/-- The quaternion built by the orientation estimator from a non-degenerate
keypoint geometry has unit norm: the constructed basis is orthonormal of the
shape (x, z x x, z) and `setFromRotationMatrix` preserves unit norm on it. -/
theorem calculateFaceQuaternionCore_normSq (left right noseBridge noseTip : Vec3)
    (hx : (right.sub left).lengthSq ≠ 0)
    (hz : (((right.sub left).normalize).cross
      ((noseBridge.sub noseTip).normalize)).lengthSq ≠ 0) :
    (calculateFaceQuaternionCore left right noseBridge noseTip).normSq = 1 := by
  set u := (right.sub left).normalize with hu
  set y0 := (noseBridge.sub noseTip).normalize with hy0
  set zr := u.cross y0 with hzr
  set z := zr.normalize with hzdef
  have hxu : u.lengthSq = 1 := by
    have h2 := Vec3.dot_normalize_self _ hx
    rwa [Vec3.dot_self] at h2
  have hzu : z.lengthSq = 1 := by
    have h2 := Vec3.dot_normalize_self _ hz
    rwa [Vec3.dot_self] at h2
  have huzr : u.dot zr = 0 := by
    rw [hzr, Vec3.dot_comm]
    exact Vec3.cross_dot_left u y0
  have hxz : u.dot z = 0 := by
    rw [hzdef, Vec3.normalize_eq, Vec3.dot_multiplyScalar, huzr, mul_zero]
  have hone : (z.cross u).lengthSq = 1 := by
    rw [Vec3.lengthSq_cross, hzu, hxu, Vec3.dot_comm, hxz]
    norm_num
  have hcore : calculateFaceQuaternionCore left right noseBridge noseTip =
      quatFromRotationMatrix (makeBasis u (z.cross u) z) := by
    show quatFromRotationMatrix (makeBasis u ((z.cross u).normalize) z) =
      quatFromRotationMatrix (makeBasis u (z.cross u) z)
    rw [Vec3.normalize_of_lengthSq_one _ hone]
  rw [hcore]
  exact quatFromRotationMatrix_normSq_eq_one u z hxu hzu hxz

/-- C7: for every valid (non-degenerate) keypoint set, the orientation
estimator's quaternion has exactly unit norm over the idealized real
arithmetic (so in particular its length is within 1e-6 of 1), and the
unit-norm invariant is preserved by every subsequent slerp step of the
temporal filter toward the composed target built from it. -/
theorem c7_unit_quaternion (landmarks : List Landmark) (w h : ℝ) (q : Quat)
    (lmL lmR lmB lmT : Landmark)
    (hL : landmarks[(33 : Nat)]? = some lmL)
    (hR : landmarks[(263 : Nat)]? = some lmR)
    (hB : landmarks[(168 : Nat)]? = some lmB)
    (hT : landmarks[(4 : Nat)]? = some lmT)
    (hx : ((landmarkToVector3 lmR w h).sub (landmarkToVector3 lmL w h)).lengthSq ≠ 0)
    (hz : ((((landmarkToVector3 lmR w h).sub (landmarkToVector3 lmL w h)).normalize).cross
      (((landmarkToVector3 lmB w h).sub (landmarkToVector3 lmT w h)).normalize)).lengthSq ≠ 0)
    (hq : calculateFaceQuaternion landmarks w h = some q) :
    q.normSq = 1 ∧ |q.length - 1| < 1e-6 ∧
    (∀ (p : Quat) (off : Option Euler), p.normSq = 1 →
      (p.slerp (targetQuaternion q off) DAMPING).normSq = 1) := by
  have hval : calculateFaceQuaternionCore
      (landmarkToVector3 lmL w h) (landmarkToVector3 lmR w h)
      (landmarkToVector3 lmB w h) (landmarkToVector3 lmT w h) = q := by
    rw [calculateFaceQuaternion] at hq
    simp only [anchorLeftEye, anchorRightEye, anchorNoseBridge, anchorNoseTip] at hq
    rw [hL, hR, hB, hT] at hq
    exact Option.some.inj hq
  have hnorm : q.normSq = 1 := by
    rw [← hval]
    exact calculateFaceQuaternionCore_normSq _ _ _ _ hx hz
  refine ⟨hnorm, ?_, ?_⟩
  · rw [Quat.length, hnorm, Real.sqrt_one]
    norm_num
  · intro p off hp
    exact (slerp_step p (targetQuaternion q off)
      hp (normSq_targetQuaternion q off hnorm)).1

theorem c7_unit_quaternion_witness :
    calculateFaceQuaternion c5lms 100 100 = some { x := 0, y := 0, z := 0, w := 1 } ∧
    ((landmarkToVector3 { x := 0.51, y := 0.5, z := 0 } 100 100).sub
      (landmarkToVector3 { x := 0.49, y := 0.5, z := 0 } 100 100)).lengthSq ≠ 0 ∧
    ({ x := 0, y := 0, z := 0, w := 1 } : Quat).normSq = 1 ∧
    |({ x := 0, y := 0, z := 0, w := 1 } : Quat).length - 1| < 1e-6 ∧
    (∀ (p : Quat) (off : Option Euler), p.normSq = 1 →
      (p.slerp (targetQuaternion { x := 0, y := 0, z := 0, w := 1 } off) DAMPING).normSq = 1) := by
  have h33 : c5lms[(33 : Nat)]? = some { x := 0.49, y := 0.5, z := 0 } := by
    rw [c5lms_getElem 33 (by norm_num)]; norm_num [c5fn]
  have h263 : c5lms[(263 : Nat)]? = some { x := 0.51, y := 0.5, z := 0 } := by
    rw [c5lms_getElem 263 (by norm_num)]; norm_num [c5fn]
  have h168 : c5lms[(168 : Nat)]? = some { x := 0.5, y := 0.495, z := 0 } := by
    rw [c5lms_getElem 168 (by norm_num)]; norm_num [c5fn]
  have h4 : c5lms[(4 : Nat)]? = some { x := 0.5, y := 0.505, z := 0 } := by
    rw [c5lms_getElem 4 (by norm_num)]; norm_num [c5fn]
  have hx : ((landmarkToVector3 { x := 0.51, y := 0.5, z := 0 } 100 100).sub
      (landmarkToVector3 { x := 0.49, y := 0.5, z := 0 } 100 100)).lengthSq ≠ 0 := by
    norm_num [landmarkToVector3, Vec3.sub, Vec3.lengthSq]
  have hz : ((((landmarkToVector3 { x := 0.51, y := 0.5, z := 0 } 100 100).sub
      (landmarkToVector3 { x := 0.49, y := 0.5, z := 0 } 100 100)).normalize).cross
      (((landmarkToVector3 { x := 0.5, y := 0.495, z := 0 } 100 100).sub
        (landmarkToVector3 { x := 0.5, y := 0.505, z := 0 } 100 100)).normalize)).lengthSq ≠ 0 := by
    norm_num [landmarkToVector3, Vec3.sub, Vec3.normalize, Vec3.length, Vec3.lengthSq,
      Vec3.divideScalar, Vec3.multiplyScalar, Vec3.cross, sqrt_four, Real.sqrt_one]
  obtain ⟨H1, H2, H3⟩ := c7_unit_quaternion c5lms 100 100 { x := 0, y := 0, z := 0, w := 1 }
    _ _ _ _ h33 h263 h168 h4 hx hz c5lms_rotation
  exact ⟨c5lms_rotation, hx, H1, H2, H3⟩

/-- A scalar lies between a previous value and a target (in either
direction of travel). -/
def btwn (prev cur target : ℝ) : Prop :=
  (prev ≤ cur ∧ cur ≤ target) ∨ (target ≤ cur ∧ cur ≤ prev)

/-- A nonnegative sequence contracting by a fixed factor k < 1 at every step
eventually falls below every positive ε. -/
theorem geom_decay (d : ℕ → ℝ) (k : ℝ) (hk0 : 0 ≤ k) (hk1 : k < 1)
    (hd0 : ∀ n, 0 ≤ d n) (hstep : ∀ n, d (n + 1) ≤ k * d n) :
    ∀ ε : ℝ, 0 < ε → ∃ N : ℕ, ∀ n : ℕ, N ≤ n → d n < ε := by
  have hbound : ∀ n, d n ≤ k ^ n * d 0 := by
    intro n
    induction n with
    | zero => simp
    | succ m ih =>
      calc d (m + 1) ≤ k * d m := hstep m
        _ ≤ k * (k ^ m * d 0) := mul_le_mul_of_nonneg_left ih hk0
        _ = k ^ (m + 1) * d 0 := by ring
  intro ε hε
  have hd00 : 0 ≤ d 0 := hd0 0
  have hd01 : (0 : ℝ) < d 0 + 1 := by linarith
  obtain ⟨N, hN⟩ := exists_pow_lt_of_lt_one (div_pos hε hd01) hk1
  refine ⟨N, fun n hn => ?_⟩
  have hkn : k ^ n ≤ k ^ N := pow_le_pow_of_le_one hk0 hk1.le hn
  have hε2 : k ^ N * (d 0 + 1) < ε := (lt_div_iff hd01).mp hN
  have hkN0 : 0 ≤ k ^ N := pow_nonneg hk0 N
  calc d n ≤ k ^ n * d 0 := hbound n
    _ ≤ k ^ N * d 0 := mul_le_mul_of_nonneg_right hkn hd00
    _ < ε := by nlinarith

/-- C9: feeding the temporal filter the same raw pose repeatedly converges
the smoothed pose to the raw pose — position componentwise, scale, and
orientation in the rotation metric (the alignment |dot| of the unit
quaternions goes to 1) — and never overshoots: each update keeps every
position component and the scale between the previous smoothed value and the
raw target, and the orientation alignment is nondecreasing and never exceeds
1. -/
theorem c9_temporal_filter_convergence (raw st : Pose)
    (hr : raw.quaternion.normSq = 1) (hst : st.quaternion.normSq = 1) :
    (∀ n : ℕ,
      btwn (((tfUpdate raw)^[n] st).position.x) (((tfUpdate raw)^[n + 1] st).position.x)
        raw.position.x ∧
      btwn (((tfUpdate raw)^[n] st).position.y) (((tfUpdate raw)^[n + 1] st).position.y)
        raw.position.y ∧
      btwn (((tfUpdate raw)^[n] st).position.z) (((tfUpdate raw)^[n + 1] st).position.z)
        raw.position.z ∧
      btwn (((tfUpdate raw)^[n] st).scale) (((tfUpdate raw)^[n + 1] st).scale) raw.scale ∧
      |((tfUpdate raw)^[n] st).quaternion.dot raw.quaternion| ≤
        |((tfUpdate raw)^[n + 1] st).quaternion.dot raw.quaternion| ∧
      |((tfUpdate raw)^[n + 1] st).quaternion.dot raw.quaternion| ≤ 1) ∧
    (∀ ε : ℝ, 0 < ε → ∃ N : ℕ, ∀ n : ℕ, N ≤ n →
      |((tfUpdate raw)^[n] st).position.x - raw.position.x| < ε ∧
      |((tfUpdate raw)^[n] st).position.y - raw.position.y| < ε ∧
      |((tfUpdate raw)^[n] st).position.z - raw.position.z| < ε ∧
      |((tfUpdate raw)^[n] st).scale - raw.scale| < ε ∧
      1 - (((tfUpdate raw)^[n] st).quaternion.dot raw.quaternion) ^ 2 < ε) := by
  have hposx : ∀ n, ((tfUpdate raw)^[n + 1] st).position.x =
      ((tfUpdate raw)^[n] st).position.x +
        (raw.position.x - ((tfUpdate raw)^[n] st).position.x) * 0.9 := by
    intro n
    rw [Function.iterate_succ_apply']
    simp only [tfUpdate, Vec3.lerp, DAMPING]
  have hposy : ∀ n, ((tfUpdate raw)^[n + 1] st).position.y =
      ((tfUpdate raw)^[n] st).position.y +
        (raw.position.y - ((tfUpdate raw)^[n] st).position.y) * 0.9 := by
    intro n
    rw [Function.iterate_succ_apply']
    simp only [tfUpdate, Vec3.lerp, DAMPING]
  have hposz : ∀ n, ((tfUpdate raw)^[n + 1] st).position.z =
      ((tfUpdate raw)^[n] st).position.z +
        (raw.position.z - ((tfUpdate raw)^[n] st).position.z) * 0.9 := by
    intro n
    rw [Function.iterate_succ_apply']
    simp only [tfUpdate, Vec3.lerp, DAMPING]
  have hscale : ∀ n, ((tfUpdate raw)^[n + 1] st).scale =
      (1 - 0.1) * ((tfUpdate raw)^[n] st).scale + 0.1 * raw.scale := by
    intro n
    rw [Function.iterate_succ_apply']
    simp only [tfUpdate, mathUtilsLerp]
  have hquat : ∀ n, ((tfUpdate raw)^[n + 1] st).quaternion =
      (((tfUpdate raw)^[n] st).quaternion).slerp raw.quaternion DAMPING := by
    intro n
    rw [Function.iterate_succ_apply']
    rfl
  have hQn : ∀ n, ((tfUpdate raw)^[n] st).quaternion.normSq = 1 := by
    intro n
    induction n with
    | zero => simpa using hst
    | succ m ih =>
      rw [hquat m]
      exact (slerp_step _ _ ih hr).1
  constructor
  · intro n
    refine ⟨?_, ?_, ?_, ?_, ?_, ?_⟩
    · rw [btwn, hposx n]
      rcases le_total (((tfUpdate raw)^[n] st).position.x) raw.position.x with hc | hc
      · exact Or.inl ⟨by linarith, by linarith⟩
      · exact Or.inr ⟨by linarith, by linarith⟩
    · rw [btwn, hposy n]
      rcases le_total (((tfUpdate raw)^[n] st).position.y) raw.position.y with hc | hc
      · exact Or.inl ⟨by linarith, by linarith⟩
      · exact Or.inr ⟨by linarith, by linarith⟩
    · rw [btwn, hposz n]
      rcases le_total (((tfUpdate raw)^[n] st).position.z) raw.position.z with hc | hc
      · exact Or.inl ⟨by linarith, by linarith⟩
      · exact Or.inr ⟨by linarith, by linarith⟩
    · rw [btwn, hscale n]
      rcases le_total (((tfUpdate raw)^[n] st).scale) raw.scale with hc | hc
      · exact Or.inl ⟨by linarith, by linarith⟩
      · exact Or.inr ⟨by linarith, by linarith⟩
    · rw [hquat n]
      exact (slerp_step _ _ (hQn n) hr).2.1
    · rw [hquat n]
      exact (slerp_step _ _ (hQn n) hr).2.2.1
  · intro ε hε
    have hdx : ∀ n, |((tfUpdate raw)^[n + 1] st).position.x - raw.position.x| ≤
        (1 / 10) * |((tfUpdate raw)^[n] st).position.x - raw.position.x| := by
      intro n
      have heq : ((tfUpdate raw)^[n + 1] st).position.x - raw.position.x =
          (1 / 10) * (((tfUpdate raw)^[n] st).position.x - raw.position.x) := by
        rw [hposx n]; ring
      rw [heq, abs_mul, abs_of_pos (show (0 : ℝ) < 1 / 10 by norm_num)]
    have hdy : ∀ n, |((tfUpdate raw)^[n + 1] st).position.y - raw.position.y| ≤
        (1 / 10) * |((tfUpdate raw)^[n] st).position.y - raw.position.y| := by
      intro n
      have heq : ((tfUpdate raw)^[n + 1] st).position.y - raw.position.y =
          (1 / 10) * (((tfUpdate raw)^[n] st).position.y - raw.position.y) := by
        rw [hposy n]; ring
      rw [heq, abs_mul, abs_of_pos (show (0 : ℝ) < 1 / 10 by norm_num)]
    have hdz : ∀ n, |((tfUpdate raw)^[n + 1] st).position.z - raw.position.z| ≤
        (1 / 10) * |((tfUpdate raw)^[n] st).position.z - raw.position.z| := by
      intro n
      have heq : ((tfUpdate raw)^[n + 1] st).position.z - raw.position.z =
          (1 / 10) * (((tfUpdate raw)^[n] st).position.z - raw.position.z) := by
        rw [hposz n]; ring
      rw [heq, abs_mul, abs_of_pos (show (0 : ℝ) < 1 / 10 by norm_num)]
    have hds : ∀ n, |((tfUpdate raw)^[n + 1] st).scale - raw.scale| ≤
        (9 / 10) * |((tfUpdate raw)^[n] st).scale - raw.scale| := by
      intro n
      have heq : ((tfUpdate raw)^[n + 1] st).scale - raw.scale =
          (9 / 10) * (((tfUpdate raw)^[n] st).scale - raw.scale) := by
        rw [hscale n]; ring
      rw [heq, abs_mul, abs_of_pos (show (0 : ℝ) < 9 / 10 by norm_num)]
    have hdq : ∀ n, 1 - (((tfUpdate raw)^[n + 1] st).quaternion.dot raw.quaternion) ^ 2 ≤
        (1 / 4) * (1 - (((tfUpdate raw)^[n] st).quaternion.dot raw.quaternion) ^ 2) := by
      intro n
      rw [hquat n]
      exact (slerp_step _ _ (hQn n) hr).2.2.2
    have hdq0 : ∀ n, 0 ≤ 1 - (((tfUpdate raw)^[n] st).quaternion.dot raw.quaternion) ^ 2 := by
      intro n
      nlinarith [Quat.dot_sq_le_one _ _ (hQn n) hr]
    obtain ⟨N1, hN1⟩ := geom_decay
      (fun n => |((tfUpdate raw)^[n] st).position.x - raw.position.x|) (1 / 10)
      (by norm_num) (by norm_num) (fun n => abs_nonneg _) hdx ε hε
    obtain ⟨N2, hN2⟩ := geom_decay
      (fun n => |((tfUpdate raw)^[n] st).position.y - raw.position.y|) (1 / 10)
      (by norm_num) (by norm_num) (fun n => abs_nonneg _) hdy ε hε
    obtain ⟨N3, hN3⟩ := geom_decay
      (fun n => |((tfUpdate raw)^[n] st).position.z - raw.position.z|) (1 / 10)
      (by norm_num) (by norm_num) (fun n => abs_nonneg _) hdz ε hε
    obtain ⟨N4, hN4⟩ := geom_decay
      (fun n => |((tfUpdate raw)^[n] st).scale - raw.scale|) (9 / 10)
      (by norm_num) (by norm_num) (fun n => abs_nonneg _) hds ε hε
    obtain ⟨N5, hN5⟩ := geom_decay
      (fun n => 1 - (((tfUpdate raw)^[n] st).quaternion.dot raw.quaternion) ^ 2) (1 / 4)
      (by norm_num) (by norm_num) hdq0 hdq ε hε
    refine ⟨max N1 (max N2 (max N3 (max N4 N5))), fun n hn => ?_⟩
    have h1 : N1 ≤ n := le_trans (le_max_left _ _) hn
    have h2 : N2 ≤ n := le_trans (le_trans (le_max_left _ _) (le_max_right _ _)) hn
    have h3 : N3 ≤ n := le_trans (le_trans (le_trans (le_max_left _ _)
      (le_max_right _ _)) (le_max_right _ _)) hn
    have h4 : N4 ≤ n := le_trans (le_trans (le_trans (le_trans (le_max_left _ _)
      (le_max_right _ _)) (le_max_right _ _)) (le_max_right _ _)) hn
    have h5 : N5 ≤ n := le_trans (le_trans (le_trans (le_trans (le_max_right _ _)
      (le_max_right _ _)) (le_max_right _ _)) (le_max_right _ _)) hn
    exact ⟨hN1 n h1, hN2 n h2, hN3 n h3, hN4 n h4, hN5 n h5⟩

/-- A concrete raw pose for exercising the temporal filter. -/
def c9raw : Pose :=
  { position := { x := 1, y := 2, z := 3 }
    quaternion := { x := 0, y := 0, z := 0, w := 1 }
    scale := 2 }

/-- A concrete initial filter state. -/
def c9st : Pose :=
  { position := { x := 0, y := 0, z := 0 }
    quaternion := { x := 0, y := 0, z := 0, w := 1 }
    scale := 1 }

theorem c9_temporal_filter_convergence_witness :
    c9raw.quaternion.normSq = 1 ∧ c9st.quaternion.normSq = 1 ∧
    ((∀ n : ℕ,
      btwn (((tfUpdate c9raw)^[n] c9st).position.x)
        (((tfUpdate c9raw)^[n + 1] c9st).position.x) c9raw.position.x ∧
      btwn (((tfUpdate c9raw)^[n] c9st).position.y)
        (((tfUpdate c9raw)^[n + 1] c9st).position.y) c9raw.position.y ∧
      btwn (((tfUpdate c9raw)^[n] c9st).position.z)
        (((tfUpdate c9raw)^[n + 1] c9st).position.z) c9raw.position.z ∧
      btwn (((tfUpdate c9raw)^[n] c9st).scale)
        (((tfUpdate c9raw)^[n + 1] c9st).scale) c9raw.scale ∧
      |((tfUpdate c9raw)^[n] c9st).quaternion.dot c9raw.quaternion| ≤
        |((tfUpdate c9raw)^[n + 1] c9st).quaternion.dot c9raw.quaternion| ∧
      |((tfUpdate c9raw)^[n + 1] c9st).quaternion.dot c9raw.quaternion| ≤ 1) ∧
    (∀ ε : ℝ, 0 < ε → ∃ N : ℕ, ∀ n : ℕ, N ≤ n →
      |((tfUpdate c9raw)^[n] c9st).position.x - c9raw.position.x| < ε ∧
      |((tfUpdate c9raw)^[n] c9st).position.y - c9raw.position.y| < ε ∧
      |((tfUpdate c9raw)^[n] c9st).position.z - c9raw.position.z| < ε ∧
      |((tfUpdate c9raw)^[n] c9st).scale - c9raw.scale| < ε ∧
      1 - (((tfUpdate c9raw)^[n] c9st).quaternion.dot c9raw.quaternion) ^ 2 < ε)) := by
  have h1 : c9raw.quaternion.normSq = 1 := by norm_num [c9raw, Quat.normSq]
  have h2 : c9st.quaternion.normSq = 1 := by norm_num [c9st, Quat.normSq]
  exact ⟨h1, h2, c9_temporal_filter_convergence c9raw c9st h1 h2⟩

/-- Slerping a unit quaternion toward itself leaves it unchanged (the
aligned-quaternions early return of the three.js slerp). -/
theorem Quat.slerp_self (q : Quat) (hq : q.normSq = 1) (t : ℝ) : q.slerp q t = q := by
  simp only [Quat.slerp]
  by_cases h0 : t = 0
  · rw [if_pos h0]
  · rw [if_neg h0]
    by_cases h1 : t = 1
    · rw [if_pos h1]
    · rw [if_neg h1]
      have hd : q.w * q.w + q.x * q.x + q.y * q.y + q.z * q.z = 1 := by
        simp only [Quat.normSq] at hq
        linarith
      have hneg : ¬(q.w * q.w + q.x * q.x + q.y * q.y + q.z * q.z < 0) := by
        rw [hd]; norm_num
      rw [if_neg hneg, if_neg hneg,
        if_pos (show (1 : ℝ) ≤ q.w * q.w + q.x * q.x + q.y * q.y + q.z * q.z by rw [hd])]

/-- A published face matrix for the C1 counterexample. -/
def c1fm : FaceMatrix :=
  { position := { x := 0, y := 0, z := 0 }
    rotation := { x := 0, y := 0, z := 0, w := 1 }
    faceWidth := 0
    pupilLeft := { x := 0, y := 0, z := 0 }
    pupilRight := { x := 0, y := 0, z := 0 } }

/-- C1 counterexample: on a no-detection frame the callback publishes
nothing new (the raw pose stays bit-identical), yet the very next render
tick still moves the smoothed position toward the stale target — the
filtered pose read by the render tick is NOT bit-identical across
no-update ticks. -/
theorem c1_counterexample :
    onResultsUpdate [] 100 100 (some c1fm) = some c1fm ∧
    (useFrameTick 0
      { position := { x := 0, y := 0, z := 0 }
        rotation := { x := 0, y := 0, z := 0, w := 1 }
        faceWidth := 0, rotationOffset := none }
      { position := { x := 0, y := 0, z := 0 }
        quaternion := { x := 0, y := 0, z := 0, w := 1 }
        scale := 1 }).position.y ≠
      ({ position := { x := 0, y := 0, z := 0 }
         quaternion := { x := 0, y := 0, z := 0, w := 1 }
         scale := 1 } : Pose).position.y := by
  refine ⟨rfl, ?_⟩
  norm_num [useFrameTick, targetPosition, Vec3.lerp, DAMPING]

/-- C1 amended: when no face is detected the callback leaves the published
raw pose unchanged (the loss policy holds at the detection layer), but the
render tick keeps interpolating the smoothed pose toward that last-published
target each tick; the smoothed pose is bit-identical across such ticks
exactly when it has already converged — a state equal to the target
(offset position, composed unit quaternion, resolved scale when the native
width is known) is a fixed point of the tick. -/
theorem c1_amended_loss_policy (w h : ℝ) (prev : Option FaceMatrix)
    (nativeWidth : ℝ) (props : GlassesProps) (st : Pose)
    (hpos : st.position = targetPosition props.position)
    (hquat : st.quaternion = targetQuaternion props.rotation props.rotationOffset)
    (hunit : st.quaternion.normSq = 1)
    (hscale : 0 < nativeWidth → st.scale = props.faceWidth / nativeWidth) :
    onResultsUpdate [] w h prev = prev ∧ useFrameTick nativeWidth props st = st := by
  refine ⟨rfl, ?_⟩
  have h1 : st.position.lerp (targetPosition props.position) DAMPING = st.position := by
    rw [← hpos]
    cases hp : st.position with
    | mk a b c => simp [Vec3.lerp]
  have h2 : st.quaternion.slerp (targetQuaternion props.rotation props.rotationOffset)
      DAMPING = st.quaternion := by
    rw [← hquat]
    exact Quat.slerp_self _ hunit _
  have h3 : (if 0 < nativeWidth then
      mathUtilsLerp st.scale (props.faceWidth / nativeWidth) 0.1 else st.scale) =
      st.scale := by
    split_ifs with hw
    · rw [hscale hw]
      simp only [mathUtilsLerp]
      ring
    · rfl
  calc useFrameTick nativeWidth props st =
      { position := st.position.lerp (targetPosition props.position) DAMPING
        quaternion := st.quaternion.slerp
          (targetQuaternion props.rotation props.rotationOffset) DAMPING
        scale := if 0 < nativeWidth then
          mathUtilsLerp st.scale (props.faceWidth / nativeWidth) 0.1 else st.scale } := rfl
    _ = st := by rw [h1, h2, h3]

/-- Concrete props for the C1 amended witness: identity face rotation, no
per-model offset. -/
def c1props : GlassesProps :=
  { position := { x := 0, y := 5, z := -10 }
    rotation := { x := 0, y := 0, z := 0, w := 1 }
    faceWidth := 3
    rotationOffset := none }

/-- The corresponding converged state: offset position (0,0,0), composed
quaternion (0, sqrt 2 / 2, sqrt 2 / 2, 0), resolved scale 3. -/
noncomputable def c1st : Pose :=
  { position := { x := 0, y := 0, z := 0 }
    quaternion := { x := 0, y := Real.sqrt 2 / 2, z := Real.sqrt 2 / 2, w := 0 }
    scale := 3 }

theorem c1_amended_loss_policy_witness :
    c1st.position = targetPosition c1props.position ∧
    c1st.quaternion = targetQuaternion c1props.rotation c1props.rotationOffset ∧
    c1st.quaternion.normSq = 1 ∧
    (onResultsUpdate [] 100 100 (some c1fm) = some c1fm ∧
      useFrameTick 1 c1props c1st = c1st) := by
  have hs2 : Real.sqrt 2 * Real.sqrt 2 = 2 := Real.mul_self_sqrt (by norm_num)
  have e1 : Real.sin (Real.pi / 2) = 1 := Real.sin_pi_div_two
  have e2 : Real.cos (Real.pi / 2) = 0 := Real.cos_pi_div_two
  have e3 : Real.sin (-(Real.pi / 2) / 2) = -(Real.sqrt 2 / 2) := by
    rw [show -(Real.pi / 2) / 2 = -(Real.pi / 4) by ring, Real.sin_neg,
      Real.sin_pi_div_four]
  have e4 : Real.cos (-(Real.pi / 2) / 2) = Real.sqrt 2 / 2 := by
    rw [show -(Real.pi / 2) / 2 = -(Real.pi / 4) by ring, Real.cos_neg,
      Real.cos_pi_div_four]
  have hpos : c1st.position = targetPosition c1props.position := by
    norm_num [c1st, c1props, targetPosition]
  have hquat : c1st.quaternion = targetQuaternion c1props.rotation c1props.rotationOffset := by
    simp only [c1st, c1props, targetQuaternion, correctionY, correctionX,
      quatFromAxisAngle, Quat.mul, e1, e2, e3, e4]
    norm_num
  have hunit : c1st.quaternion.normSq = 1 := by
    simp only [c1st, Quat.normSq]
    nlinarith [hs2]
  have hscale : 0 < (1 : ℝ) → c1st.scale = c1props.faceWidth / 1 := by
    intro h2
    norm_num [c1st, c1props]
  exact ⟨hpos, hquat, hunit,
    c1_amended_loss_policy 100 100 (some c1fm) 1 c1props c1st hpos hquat hunit hscale⟩

theorem c10_requires_refined_topology_witness :
    474 ≤ (List.replicate 474 ({ x := 0.5, y := 0.5, z := 0.5 } : Landmark)).length ∧
    (onResultsPose (List.replicate 474 { x := 0.5, y := 0.5, z := 0.5 }) 100 100).isSome = true ∧
    onResultsPose (List.replicate 468 { x := 0.5, y := 0.5, z := 0.5 }) 100 100 = none := by
  have hlen : 474 ≤ (List.replicate 474 ({ x := 0.5, y := 0.5, z := 0.5 } : Landmark)).length := by
    rw [List.length_replicate]
  have hshort : (List.replicate 468 ({ x := 0.5, y := 0.5, z := 0.5 } : Landmark)).length < 474 := by
    rw [List.length_replicate]
    norm_num
  obtain ⟨H1, H2⟩ := c10_requires_refined_topology _ 100 100 hlen
  exact ⟨hlen, H1, H2 _ 100 100 hshort⟩

end VTO
